import Mathlib

/-!
# EGL / XCB windowing backend

A shallow embedding of the EGL platform layer of the JUCE fork:

* `juce_egl_Platform.cpp` / `juce_egl_Platform.h`  (class `EglPlatform`)
* `juce_egl_XcbPlatform.cpp`                        (class `EglXcbPlatform`)
* `juce_egl_Windowing.cpp`                          (class `EglComponentPeer`)

Objects become records, member functions become functions from a record to the
updated record, and every call that leaves the modelled classes (the logger,
the X server, the GL context object, a peer, the application object) is
appended, in program order, to a list of `Effect`s.

A function returns `Option`: `none` means that the process does not carry on
(`Process::terminate()` was reached, or a null pointer was dereferenced).

Machine integers are natural numbers holding the two's complement bit pattern,
reduced modulo `2 ^ 32` or `2 ^ 64` wherever the C++ type does so.
-/

namespace Juce

/-! ## Geometry -/

/-- The class `juce::Point<int>`: a pair of coordinates. -/
structure Point where
  x : Int
  y : Int
deriving DecidableEq, Repr

/-- Modelled from the spec: `Point::isOrigin` is declared in juce_Point.h, which
is not under src/; a screen size that "has not yet been determined" is the
default-constructed point, whose coordinates are both zero. -/
def Point.isOrigin (p : Point) : Bool := p.x == 0 && p.y == 0

/-- The value of a 32-bit `int` that wraps around: the representative of `v`
modulo `2 ^ 32` between `-2 ^ 31` and `2 ^ 31 - 1`. -/
def wrap32 (v : Int) : Int := (v + 2147483648) % 4294967296 - 2147483648

/-- Whether a number is the value of a 32-bit `int`. -/
def isInt32 (v : Int) : Prop := -2147483648 ≤ v ∧ v ≤ 2147483647

/-- Modelled from the spec: `Point::operator+` is declared in juce_Point.h, which
is not under src/; the sum of two points is taken coordinate by coordinate, with
32-bit wrapping integer arithmetic. -/
def Point.add (p q : Point) : Point := ⟨wrap32 (p.x + q.x), wrap32 (p.y + q.y)⟩

/-- Modelled from the spec: `Point::operator-` is declared in juce_Point.h, which
is not under src/; the difference of two points is taken coordinate by
coordinate, with 32-bit wrapping integer arithmetic. -/
def Point.sub (p q : Point) : Point := ⟨wrap32 (p.x - q.x), wrap32 (p.y - q.y)⟩

/-- The class `juce::Rectangle<int>`: position, width and height. -/
structure Rectangle where
  x : Int
  y : Int
  w : Int
  h : Int
deriving DecidableEq, Repr

/-- Modelled from the spec: `Rectangle::isEmpty` is declared in juce_Rectangle.h,
which is not under src/; an empty rectangle is one without area, that is one
whose width or height is not positive. -/
def Rectangle.isEmpty (r : Rectangle) : Bool := decide (r.w ≤ 0) || decide (r.h ≤ 0)

/-- Modelled from the spec: `Rectangle::getTopLeft` is declared in
juce_Rectangle.h, which is not under src/; the top-left corner of a rectangle is
its position. -/
def Rectangle.getTopLeft (r : Rectangle) : Point := ⟨r.x, r.y⟩

/-- Modelled from the spec: `Rectangle::toString` is declared in juce_Rectangle.h,
which is not under src/; it yields a single-line text, here the four numbers
separated by blanks. -/
def Rectangle.toString (r : Rectangle) : String :=
  ToString.toString r.x ++ " " ++ ToString.toString r.y ++ " " ++
    ToString.toString r.w ++ " " ++ ToString.toString r.h

/-! ## Observable calls -/

/-- A pointer to a `ComponentPeer`, together with the component the peer wraps
(`peer->getComponent()`). -/
structure ComponentPeer where
  ptr : Nat
  component : Nat
deriving DecidableEq, Repr

/-- The calls the backend makes on its collaborators. -/
inductive Effect where
  /-- The call `Logger::writeToLog (msg)` -/
  | log (msg : String)
  /-- The call `DBG (msg)` -/
  | dbg (msg : String)
  /-- The call `xcb_create_window` for window `wid` with the given 16-bit size -/
  | xcbCreateWindow (wid : Nat) (width height : Nat)
  /-- The call `xcb_map_window` -/
  | xcbMapWindow (wid : Nat)
  /-- The call `xcb_intern_atom` followed by `xcb_intern_atom_reply` for a name -/
  | xcbInternAtom (name : String)
  /-- The call `xcb_change_property (…, wid, property, type, …)` -/
  | xcbChangeProperty (wid property type : Nat)
  /-- The call `xcb_flush` -/
  | xcbFlush
  /-- The call `xcb_destroy_window` -/
  | xcbDestroyWindow (wid : Nat)
  /-- The call `xcb_send_event` of a client message carrying an atom -/
  | xcbSendEvent (wid atom : Nat)
  /-- The call `XSetEventQueueOwner (display, XCBOwnsEventQueue)` -/
  | xSetEventQueueOwner (display : Nat)
  /-- The call `XCloseDisplay (display)`; `none` is the null pointer -/
  | xCloseDisplay (display : Option Nat)
  /-- The call `new OpenGLContext()` -/
  | contextCreated
  /-- The call `context->attachTo (comp)` -/
  | contextAttachTo (component : Nat)
  /-- The call `context->triggerRepaint()` -/
  | contextTriggerRepaint
  /-- The call `context->detach()` -/
  | contextDetach
  /-- the `ScopedPointer` deleting the context it held -/
  | contextDeleted
  /-- The call `peer->handleMovedOrResized()` -/
  | peerHandleMovedOrResized (peer : Nat)
  /-- The call `comp.setBounds (x, y, w, h)` -/
  | componentSetBounds (component : Nat) (x y w h : Int)
  /-- The call `peer->toFront (makeActive)` -/
  | peerToFront (peer : Nat) (makeActive : Bool)
  /-- The call `peer->handleMouseEvent (touchIndex, position, modifiers, time)` -/
  | peerHandleMouseEvent (peer : Nat) (touchIndex : Int) (position : Point)
      (modifiers : Nat) (time : Int)
  /-- The call `component.repaint()` -/
  | componentRepaint (component : Nat)
  /-- a failed `jassert` / `jassertfalse` -/
  | assertionFailure
  /-- The call `JUCEApplicationBase::quit()` -/
  | quit
  /-- The call `ComponentPeer::handleScreenSizeChange()` of the base class -/
  | peerBaseHandleScreenSizeChange
  /-- The call `handleKeyPress (keyCode, textCharacter)` of the base class -/
  | peerHandleKeyPress (keyCode textCharacter : Int)
  /-- The call `handleFocusGain()` of the base class -/
  | peerHandleFocusGain
  /-- The call `handleFocusLoss()` of the base class -/
  | peerHandleFocusLoss
  /-- The call `eglChooseConfig` with the sizes asked for buffer, red, green, blue -/
  | eglChooseConfig (bufferSize red green blue : Int)
  /-- The call `eglGetError()` -/
  | eglGetError
  /-- The call `eglCreateWindowSurface (eglDisplay, config, nativeWindow, …)` -/
  | eglCreateWindowSurface (config : Option Nat) (window : Nat)
  /-- The call `eglDestroySurface (eglDisplay, surface)` -/
  | eglDestroySurface (surface : Option Nat)
  /-- The call `eglCreateContext (eglDisplay, config, sharedContext, …)` -/
  | eglCreateContext (config shared : Option Nat)
  /-- The call `eglDestroyContext (eglDisplay, context)` -/
  | eglDestroyContext (context : Option Nat)
  /-- The call `eglMakeCurrent (eglDisplay, draw, read, context)` -/
  | eglMakeCurrent (draw read context : Option Nat)
  /-- The call `eglSwapBuffers (eglDisplay, surface)` -/
  | eglSwapBuffers (surface : Option Nat)
  /-- The call `eglSwapInterval (eglDisplay, interval)` -/
  | eglSwapInterval (interval : Int)
deriving DecidableEq, Repr

/-- Whether a call is a line written to the log. -/
def Effect.isLog : Effect → Bool
  | .log _ => true
  | _ => false

/-- Whether a call is an attempt to create a window surface. -/
def Effect.isSurfaceAttempt : Effect → Bool
  | .eglCreateWindowSurface _ _ => true
  | _ => false

/-! ## The platform object -/

/-- The `OpenGLContext` the platform owns; `target` is the component it is
attached to (`getTargetComponent()`). -/
structure OpenGLContext where
  target : Option Nat
deriving DecidableEq, Repr

/-- The raw bytes of an `xcb_generic_event_t` (32 bytes on the wire). -/
structure xcb_generic_event_t where
  bytes : List Nat
deriving DecidableEq, Repr

/-- The object `EglXcbPlatform` with its base class `EglPlatform`, the `Pimpl`
it owns, and the namespace-level variables the two classes use. -/
structure EglXcbPlatform where
  /-- The member `EglPlatform::peers` (pointers) -/
  peers : List Nat
  /-- The member `pimpl->context` -/
  context : Option OpenGLContext
  /-- The member `pimpl->nativeWindow` -/
  pimplNativeWindow : Nat
  /-- the global `nativeWindow` -/
  nativeWindow : Nat
  /-- the global `eglDisplay`; `none` is `EGL_NO_DISPLAY` -/
  eglDisplay : Option Nat
  /-- The member `display`; `none` is the null pointer -/
  display : Option Nat
  /-- The member `connection`; `none` is the null pointer -/
  connection : Option Nat
  /-- The member `atoms`, indexed by `XcbAtoms` -/
  atoms : List Nat
  /-- The member `window` -/
  window : Nat
  /-- The member `eventWindow` -/
  eventWindow : Nat
  /-- The member `screenSize` (mutable) -/
  screenSize : Point
  /-- The member `XcbKeys::currentModifiers` -/
  currentModifiers : Nat
  /-- the next identifier `xcb_generate_id` hands out -/
  nextXid : Nat
  /-- the atoms the X server answers `xcb_intern_atom` with, by `XcbAtoms` index -/
  serverAtoms : List Nat
  /-- the events the connection holds, oldest first -/
  eventQueue : List xcb_generic_event_t
  /-- whether the global `eventQueryCallback` has been set -/
  eventQueryCallback : Bool
  /-- the calls made so far, oldest first -/
  trace : List Effect
deriving DecidableEq, Repr

namespace XcbAtoms

def netWmName : Nat := 0
def utf8String : Nat := 1
def wmProtocols : Nat := 2
def wmDeleteWindow : Nat := 3
def netWmState : Nat := 4
def netWmStateFullscreen : Nat := 5
def numAtoms : Nat := 6

end XcbAtoms

namespace EglXcbPlatform

/-- The constructor `EglXcbPlatform()` (with `EglPlatform()` and `Pimpl()`): no
connection, no window, no context, no peers; `screenSize` is default-constructed.
What the X server will answer is given by `nextXid`, `serverAtoms`, `queue`. -/
def new (nextXid : Nat) (serverAtoms : List Nat) (queue : List xcb_generic_event_t) :
    EglXcbPlatform :=
  { peers := [], context := none, pimplNativeWindow := 0, nativeWindow := 0,
    eglDisplay := none, display := none, connection := none, atoms := [],
    window := 0, eventWindow := 0, screenSize := ⟨0, 0⟩, currentModifiers := 0,
    nextXid := nextXid, serverAtoms := serverAtoms, eventQueue := queue,
    eventQueryCallback := false, trace := [] }

/-- Appends one call to the trace. -/
def emit (s : EglXcbPlatform) (e : Effect) : EglXcbPlatform :=
  { s with trace := s.trace ++ [e] }

/-- The function `xcb_generate_id (connection)`. -/
def xcb_generate_id (s : EglXcbPlatform) : Nat × EglXcbPlatform :=
  (s.nextXid, { s with nextXid := s.nextXid + 1 })

/-- The function `EglXcbPlatform::getScreenSize`. -/
def getScreenSize (s : EglXcbPlatform) : Point × EglXcbPlatform :=
  if s.screenSize.isOrigin then
    let s1 := { s with screenSize := ⟨320, 240⟩ }
    let s2 := s1.emit (.log "EGL: screen size not set, falling back to 640x480")
    (s2.screenSize, s2)
  else
    (s.screenSize, s)

/-- The names interned by `createNativeWindow`, by `XcbAtoms` index. -/
def atomNames : List String :=
  ["_NET_WM_NAME", "UTF8_STRING", "WM_PROTOCOLS", "WM_DELETE_WINDOW",
   "_NET_WM_STATE", "_NET_WM_STATE_FULLSCREEN"]

/-- The atom constant `XCB_ATOM_ATOM` of xproto.h. -/
def XCB_ATOM_ATOM : Nat := 4

/-- The atom constant `XCB_ATOM_NONE` of xproto.h. -/
def XCB_ATOM_NONE : Nat := 0

/-- The function `EglXcbPlatform::createNativeWindow`. The static `doFullscreen` is `false`,
so the fullscreen property is never written. -/
def createNativeWindow (s : EglXcbPlatform) (width height : Int) : Nat × EglXcbPlatform :=
  let (wid, s1) := s.xcb_generate_id
  let s2 := { s1 with window := wid }
  let s3 := s2.emit (.xcbCreateWindow wid (width % 65536).toNat (height % 65536).toNat)
  let s4 := s3.emit (.xcbMapWindow wid)
  let s5 := { s4 with trace := s4.trace ++ atomNames.map Effect.xcbInternAtom,
                      atoms := (List.range XcbAtoms.numAtoms).map (fun i => s4.serverAtoms.getD i 0) }
  let s6 := s5.emit (.xcbChangeProperty wid (s5.atoms.getD XcbAtoms.netWmName 0)
                        (s5.atoms.getD XcbAtoms.utf8String 0))
  let s7 := s6.emit (.xcbChangeProperty wid (s6.atoms.getD XcbAtoms.wmProtocols 0) XCB_ATOM_ATOM)
  let s8 := s7.emit .xcbFlush
  (s8.window, s8)

/-- The function `EglXcbPlatform::destroyNativeWindow`. -/
def destroyNativeWindow (s : EglXcbPlatform) (window : Nat) : EglXcbPlatform :=
  s.emit (.xcbDestroyWindow window)

/-- The function `EglPlatform::addPeer`. The local `b` (the component's local
bounds) is read and never used. -/
def addPeer (s : EglXcbPlatform) (peer : ComponentPeer) : EglXcbPlatform :=
  let comp := peer.component
  let s1 :=
    if s.context.isNone then
      let (sx, a1) := s.getScreenSize
      let (sy, a2) := a1.getScreenSize
      let (wid, a3) := a2.createNativeWindow sx.x sy.y
      let a4 := { a3 with pimplNativeWindow := wid, nativeWindow := wid }
      let a5 := { a4.emit .contextCreated with context := some { target := none } }
      let a6 := { a5.emit (.contextAttachTo comp) with context := some { target := some comp } }
      let a7 := a6.emit .contextTriggerRepaint
      a7.emit (.peerHandleMovedOrResized peer.ptr)
    else s
  let (sx, s2) := s1.getScreenSize
  let (sy, s3) := s2.getScreenSize
  let s4 := s3.emit (.componentSetBounds comp 0 0 sx.x sy.y)
  { s4 with peers := s4.peers ++ [peer.ptr] }

/-- The function `EglPlatform::removePeer`. When the list becomes (or is) empty the context
pointer is dereferenced: a null `pimpl->context` there ends the run. -/
def removePeer (s : EglXcbPlatform) (peer : ComponentPeer) : Option EglXcbPlatform :=
  let s1 := { s with peers := s.peers.erase peer.ptr }
  if s1.peers.length = 0 then
    match s1.context with
    | none => none
    | some _ =>
      let s2 := s1.emit .contextDetach
      some { s2.emit .contextDeleted with context := none }
  else some s1

/-! ### Start-up and shut-down -/

/-- The answers of Xlib and EGL that `initialise` depends on. -/
structure NativeEnv where
  /-- The answer of `XOpenDisplay (0)`; `none` is the null pointer -/
  xOpenDisplay : Option Nat
  /-- The answer of `eglBindAPI (EGL_OPENGL_ES_API)` -/
  eglBindAPI : Bool
  /-- The answer of `eglGetDisplay (nativeDisplay)`; `none` is `EGL_NO_DISPLAY` -/
  eglGetDisplay : Option Nat → Option Nat
  /-- The answer of `eglInitialize (eglDisplay, …)` -/
  eglInitialize : Option Nat → Bool

/-- The function `EglXcbPlatform::initialisePlatform`. `Process::terminate()` ends the run.
`XGetXCBConnection` hands back the connection the open display owns, which is
identified here with the display. -/
def initialisePlatform (env : NativeEnv) (s : EglXcbPlatform) : Option EglXcbPlatform :=
  let s1 := { s with display := env.xOpenDisplay }
  match s1.display with
  | none => none
  | some d =>
    let s2 := s1.emit (.xSetEventQueueOwner d)
    let s3 := { s2 with connection := some d }
    let (wid, s4) := s3.xcb_generate_id
    let s5 := { s4 with eventWindow := wid }
    some (s5.emit (.xcbCreateWindow wid 1 1))

/-- The function `EglXcbPlatform::getNativeDisplay`. -/
def getNativeDisplay (s : EglXcbPlatform) : Option Nat := s.display

/-- The function `EglPlatform::initialise`. -/
def initialise (env : NativeEnv) (s : EglXcbPlatform) : Option EglXcbPlatform :=
  match s.initialisePlatform env with
  | none => none
  | some s1 =>
    let s2 := if !env.eglBindAPI then s1.emit (.log "EGL: could not bind GL_ES API") else s1
    let s3 := { s2 with eglDisplay := env.eglGetDisplay s2.getNativeDisplay }
    let s4 := if s3.eglDisplay = none then s3.emit (.log "EGL: could not open egl display") else s3
    if !env.eglInitialize s4.eglDisplay then none else some s4

/-- The function `EglXcbPlatform::sendAtom`. -/
def sendAtom (s : EglXcbPlatform) (atom : Nat) : EglXcbPlatform :=
  (s.emit (.xcbSendEvent s.eventWindow atom)).emit .xcbFlush

/-- The function `EglXcbPlatform::shutdownPlatform`. -/
def shutdownPlatform (s : EglXcbPlatform) : EglXcbPlatform :=
  let s1 := s.sendAtom XCB_ATOM_NONE
  let s2 := s1.emit (.xCloseDisplay s1.display)
  { s2 with display := none, connection := none }

/-- The function `EglPlatform::shutdown`. -/
def shutdown (s : EglXcbPlatform) : EglXcbPlatform := s.shutdownPlatform

/-- The function `EglPlatform::getInstance`, acting on the static pointer `platform` (`none`
is the null pointer): the first call constructs the backend, initialises it and
sets the event callback; the result is the object `platform` then points to. -/
def getInstance (env : NativeEnv) (nextXid : Nat) (serverAtoms : List Nat)
    (queue : List xcb_generic_event_t) (platform : Option EglXcbPlatform) :
    Option EglXcbPlatform :=
  match platform with
  | some p => some p
  | none =>
    let created := EglXcbPlatform.new nextXid serverAtoms queue
    let checked := if created.eventQueryCallback then created.emit .assertionFailure else created
    match checked.initialise env with
    | none => none
    | some p => some { p with eventQueryCallback := true }

end EglXcbPlatform

/-! ## Modifier flags -/

/-- Modelled from the spec: the enumerators of `ModifierKeys::Flags` are declared
in juce_ModifierKeys.h, which is not under src/. The spec speaks of "a modifier
flag" for each of the buttons left, middle and right without giving values, so
the three values are parameters. -/
structure ModifierFlags where
  leftButtonModifier : Nat
  middleButtonModifier : Nat
  rightButtonModifier : Nat
deriving DecidableEq, Repr

namespace ModifierKeys

/-- The enumerator `ModifierKeys::noModifiers`. -/
def noModifiers : Nat := 0

/-- The enumerator `ModifierKeys::allMouseButtonModifiers`: the three button flags
together. -/
def allMouseButtonModifiers (K : ModifierFlags) : Nat :=
  K.leftButtonModifier ||| K.rightButtonModifier ||| K.middleButtonModifier

/-- The operator `~` on a 32-bit `int`. -/
def complement32 (v : Nat) : Nat := (2 ^ 32 - 1) ^^^ (v % 2 ^ 32)

/-- Modelled from the spec: `ModifierKeys::withFlags` (juce_ModifierKeys.h, not
under src/) adds flags: the stored flags or-ed with the given ones. -/
def withFlags (flags f : Nat) : Nat := flags ||| f

/-- Modelled from the spec: `ModifierKeys::withoutFlags` (juce_ModifierKeys.h, not
under src/) removes flags: the stored flags and-ed with the complement. -/
def withoutFlags (flags f : Nat) : Nat := flags &&& complement32 f

/-- Modelled from the spec: `ModifierKeys::withoutMouseButtons` (juce_ModifierKeys.h,
not under src/) removes every mouse-button flag. -/
def withoutMouseButtons (K : ModifierFlags) (flags : Nat) : Nat :=
  withoutFlags flags (allMouseButtonModifiers K)

/-- The flag values of juce_ModifierKeys.h, used for concrete runs. -/
def juceFlags : ModifierFlags :=
  { leftButtonModifier := 16, middleButtonModifier := 64, rightButtonModifier := 32 }

end ModifierKeys

/-! ## Native events -/

namespace XcbKeys

def NoButton : Nat := 0
def LeftButton : Nat := 1
def MiddleButton : Nat := 2
def RightButton : Nat := 3
def WheelUp : Nat := 4
def WheelDown : Nat := 5

end XcbKeys

/-! The event codes of xproto.h and the little-endian field layout of the event
structures the handler casts the generic event to. -/

namespace xcb

def XCB_BUTTON_PRESS : Nat := 4
def XCB_BUTTON_RELEASE : Nat := 5
def XCB_MOTION_NOTIFY : Nat := 6
def XCB_EXPOSE : Nat := 12
def XCB_CLIENT_MESSAGE : Nat := 33

/-- The byte at an offset (a `uint8_t`). -/
def u8 (ev : xcb_generic_event_t) (i : Nat) : Nat := ev.bytes.getD i 0 % 256

/-- The `uint16_t` at an offset. -/
def u16 (ev : xcb_generic_event_t) (i : Nat) : Nat := u8 ev i + 256 * u8 ev (i + 1)

/-- The `uint32_t` at an offset. -/
def u32 (ev : xcb_generic_event_t) (i : Nat) : Nat := u16 ev i + 65536 * u16 ev (i + 2)

/-- The `int16_t` at an offset. -/
def i16 (ev : xcb_generic_event_t) (i : Nat) : Int :=
  if u16 ev i < 32768 then (u16 ev i : Int) else (u16 ev i : Int) - 65536

/-- The field `response_type` of every event. -/
def response_type (ev : xcb_generic_event_t) : Nat := u8 ev 0

/-- The field `detail` of a button or motion event. -/
def detail (ev : xcb_generic_event_t) : Nat := u8 ev 1

/-- The field `time` of a button or motion event. -/
def time (ev : xcb_generic_event_t) : Nat := u32 ev 4

/-- The field `event_x` of a button or motion event. -/
def event_x (ev : xcb_generic_event_t) : Int := i16 ev 24

/-- The field `event_y` of a button or motion event. -/
def event_y (ev : xcb_generic_event_t) : Int := i16 ev 26

/-- The field `state` of a button or motion event. -/
def state (ev : xcb_generic_event_t) : Nat := u16 ev 28

/-- The fields `x`, `y`, `width`, `height` of an expose event. -/
def exposeBounds (ev : xcb_generic_event_t) : Rectangle :=
  { x := u16 ev 8, y := u16 ev 10, w := u16 ev 12, h := u16 ev 14 }

/-- The field `format` of a client message. -/
def format (ev : xcb_generic_event_t) : Nat := u8 ev 1

/-- The field `type` of a client message. -/
def type (ev : xcb_generic_event_t) : Nat := u32 ev 8

/-- The field `data.data32[0]` of a client message. -/
def data32_0 (ev : xcb_generic_event_t) : Nat := u32 ev 12

end xcb

namespace EglXcbPlatform

/-- The function `EglXcbPlatform::translateMouseButton`: the flag, and whether `jassertfalse`
was reached. -/
def translateMouseButton (K : ModifierFlags) (button : Nat) : Nat × Bool :=
  if button = XcbKeys.NoButton then (ModifierKeys.noModifiers, false)
  else if button = XcbKeys.RightButton then (K.rightButtonModifier, false)
  else if button = XcbKeys.LeftButton then (K.leftButtonModifier, false)
  else if button = XcbKeys.MiddleButton then (K.middleButtonModifier, false)
  else (ModifierKeys.noModifiers, true)

/-- The chain `getOpenGLContext()->getTargetComponent()->getPeer()`; `none` when
one of the three pointers is null. `getPeer` is `Component::getPeer`. -/
def targetPeer (getPeer : Nat → Option Nat) (s : EglXcbPlatform) : Option Nat :=
  match s.context with
  | none => none
  | some ctx =>
    match ctx.target with
    | none => none
    | some comp => getPeer comp

/-- The function `EglXcbPlatform::handleButtonRelease`. -/
def handleButtonRelease (K : ModifierFlags) (getPeer : Nat → Option Nat) (s : EglXcbPlatform)
    (p : Point) (btn _st time : Nat) : Option EglXcbPlatform :=
  if btn = XcbKeys.RightButton ∨ btn = XcbKeys.LeftButton ∨ btn = XcbKeys.MiddleButton then
    let (buttonFlag, failed) := translateMouseButton K btn
    let s1 := if failed then s.emit .assertionFailure else s
    let s2 := { s1 with currentModifiers := ModifierKeys.withoutFlags s1.currentModifiers buttonFlag }
    match targetPeer getPeer s2 with
    | none => none
    | some peer => some (s2.emit (.peerHandleMouseEvent peer 0 p s2.currentModifiers time))
  else some s

/-- The function `EglXcbPlatform::handleButtonPress`. -/
def handleButtonPress (K : ModifierFlags) (getPeer : Nat → Option Nat) (s : EglXcbPlatform)
    (p : Point) (btn _st time : Nat) : Option EglXcbPlatform :=
  if btn = XcbKeys.RightButton ∨ btn = XcbKeys.LeftButton ∨ btn = XcbKeys.MiddleButton then
    let (buttonFlag, failed) := translateMouseButton K btn
    let s1 := if failed then s.emit .assertionFailure else s
    let s2 := { s1 with currentModifiers := ModifierKeys.withFlags s1.currentModifiers buttonFlag }
    match targetPeer getPeer s2 with
    | none => none
    | some peer =>
      let s3 := s2.emit (.peerToFront peer true)
      some (s3.emit (.peerHandleMouseEvent peer 0 p s3.currentModifiers time))
  else some s

/-- The function `EglXcbPlatform::handleMotionNotify`. -/
def handleMotionNotify (getPeer : Nat → Option Nat) (s : EglXcbPlatform)
    (p : Point) (_btn _st time : Nat) : Option EglXcbPlatform :=
  match targetPeer getPeer s with
  | none => none
  | some peer => some (s.emit (.peerHandleMouseEvent peer 0 p s.currentModifiers time))

/-- The function `EglXcbPlatform::getAtoms` indexed: `atoms [i]`. -/
def atom (s : EglXcbPlatform) (i : Nat) : Nat := s.atoms.getD i 0

/-- The body of `case XCB_CLIENT_MESSAGE` in `handleGenericEvent`. -/
def clientMessageCase (s : EglXcbPlatform) (ev : xcb_generic_event_t) : EglXcbPlatform :=
  if xcb.format ev = 32
      ∧ xcb.type ev = s.atom XcbAtoms.wmProtocols
      ∧ xcb.data32_0 ev = s.atom XcbAtoms.wmDeleteWindow then
    s.emit .quit
  else s

/-- The body of `case XCB_MOTION_NOTIFY` in `handleGenericEvent`. -/
def motionNotifyCase (getPeer : Nat → Option Nat) (s : EglXcbPlatform)
    (ev : xcb_generic_event_t) : Option EglXcbPlatform :=
  handleMotionNotify getPeer s ⟨xcb.event_x ev, xcb.event_y ev⟩
    (xcb.detail ev) (xcb.state ev) (xcb.time ev)

/-- The function `EglXcbPlatform::handleGenericEvent`. The case for button release has no
`break` and runs on into the case for motion; the case for expose has none
either and runs on into the case for client messages. -/
def handleGenericEvent (K : ModifierFlags) (getPeer : Nat → Option Nat) (s : EglXcbPlatform)
    (ev : xcb_generic_event_t) : Option EglXcbPlatform :=
  let responseType := xcb.response_type ev &&& ModifierKeys.complement32 0x80
  if responseType = xcb.XCB_BUTTON_PRESS then
    handleButtonPress K getPeer s ⟨xcb.event_x ev, xcb.event_y ev⟩
      (xcb.detail ev) (xcb.state ev) (xcb.time ev)
  else if responseType = xcb.XCB_BUTTON_RELEASE then
    match handleButtonRelease K getPeer s ⟨xcb.event_x ev, xcb.event_y ev⟩
        (xcb.detail ev) (xcb.state ev) (xcb.time ev) with
    | none => none
    | some s1 => motionNotifyCase getPeer s1 ev
  else if responseType = xcb.XCB_MOTION_NOTIFY then
    motionNotifyCase getPeer s ev
  else if responseType = xcb.XCB_EXPOSE then
    let _bounds := xcb.exposeBounds ev
    some (clientMessageCase s ev)
  else if responseType = xcb.XCB_CLIENT_MESSAGE then
    some (clientMessageCase s ev)
  else
    some (s.emit (.dbg ("EGL: unhandled xcb event: " ++ toString responseType)))

/-! ### The event pump -/

/-- The function `xcb_poll_for_event (connection)`: the oldest queued event, which
is taken off the queue, or the null pointer when none is queued. It never waits. -/
def xcb_poll_for_event (s : EglXcbPlatform) : Option xcb_generic_event_t × EglXcbPlatform :=
  match s.eventQueue with
  | [] => (none, s)
  | ev :: rest => (some ev, { s with eventQueue := rest })

/-- The function `EglXcbPlatform::getNextEvent`: the value returned and the state
left. -/
def getNextEvent (K : ModifierFlags) (getPeer : Nat → Option Nat) (s : EglXcbPlatform) :
    Option (Bool × EglXcbPlatform) :=
  match s.connection with
  | none => some (false, s)
  | some _ =>
    match s.xcb_poll_for_event with
    | (none, s1) => some (true, s1)
    | (some ev, s1) =>
      match handleGenericEvent K getPeer s1 ev with
      | none => none
      | some s2 => some (true, s2)

/-- The function `EglPlatform::processEvents`: one call of `getNextEvent`, whose
result is dropped. -/
def processEvents (K : ModifierFlags) (getPeer : Nat → Option Nat) (s : EglXcbPlatform) :
    Option (Bool × EglXcbPlatform) :=
  match getNextEvent K getPeer s with
  | none => none
  | some (_, s1) => some (true, s1)

/-- The function `EglPlatform::queryEventsCallback`, for the object the static
`platform` points to. -/
def queryEventsCallback (K : ModifierFlags) (getPeer : Nat → Option Nat) (s : EglXcbPlatform) :
    Option (Bool × EglXcbPlatform) :=
  processEvents K getPeer s

/-- The state `r` with the event queue replaced by `q` and with the calls `t`
placed before its own record of calls. -/
def resume (q : List xcb_generic_event_t) (t : List Effect) (r : EglXcbPlatform) :
    EglXcbPlatform :=
  { r with eventQueue := q, trace := t ++ r.trace }

end EglXcbPlatform

/-! ## The peer -/

/-- A `Point<float>`. Floating point values are not interpreted: the point is an
uninterpreted tag together with the integer point that `toInt()` rounds it to. -/
structure PointF where
  tag : Nat
  toInt : Point
deriving DecidableEq, Repr

/-- The value of `1 << n` on a 32-bit `int` for `n ≥ 32` is not fixed by the
language; the two behaviours of common targets are covered: the shift count is
reduced modulo 32 (`maskedCount`), or every bit is shifted out (`zeroResult`). -/
inductive ShiftTarget where
  | maskedCount
  | zeroResult
deriving DecidableEq, Repr

/-- The bit pattern of the `int` expression `1 << n`, for `n` in `0..63`. -/
def shiftLeftOne (t : ShiftTarget) (n : Nat) : Nat :=
  if n < 32 then 2 ^ n
  else match t with
    | .maskedCount => 2 ^ (n % 32)
    | .zeroResult => 0

/-- The conversion of an `int` bit pattern to `int64`: sign extension. -/
def signExtend32 (v : Nat) : Nat :=
  if v % 2 ^ 32 < 2 ^ 31 then v % 2 ^ 32 else v % 2 ^ 32 + (2 ^ 64 - 2 ^ 32)

/-- The object `EglComponentPeer`, with the member `lastNonFullscreenBounds` it
inherits from `ComponentPeer` and the three static members of the class. -/
structure EglComponentPeer where
  /-- The member `this` and the component it wraps -/
  self : ComponentPeer
  /-- The member `component.getName()` -/
  componentName : String
  bounds : Rectangle
  /-- The member `ComponentPeer::lastNonFullscreenBounds` -/
  lastNonFullscreenBounds : Rectangle
  fullScreen : Bool
  sizeAllocated : Int
  depth : Int
  /-- static `currentModifiers` -/
  currentModifiers : Nat
  /-- static `lastMousePos` -/
  lastMousePos : PointF
  /-- static `touchesDown`, an `int64` bit pattern -/
  touchesDown : Nat
  /-- the calls made so far, oldest first -/
  trace : List Effect
deriving DecidableEq, Repr

namespace EglComponentPeer

/-- The member initialisers and first statement of the constructor
`EglComponentPeer (comp, windowStyleFlags)`, in a process whose static members
still have their initial values; `ComponentPeer` default-constructs
`lastNonFullscreenBounds`. The registration with the platform that follows is
`EglXcbPlatform.getInstance` and `EglXcbPlatform.addPeer`. -/
def new (self : ComponentPeer) (componentName : String) (componentBounds : Rectangle) :
    EglComponentPeer :=
  { self := self, componentName := componentName, bounds := componentBounds,
    lastNonFullscreenBounds := ⟨0, 0, 0, 0⟩, fullScreen := false, sizeAllocated := 0,
    depth := 32, currentModifiers := 0, lastMousePos := ⟨0, ⟨0, 0⟩⟩, touchesDown := 0,
    trace := [] }

/-- Appends one call to the trace. -/
def emit (p : EglComponentPeer) (e : Effect) : EglComponentPeer :=
  { p with trace := p.trace ++ [e] }

/-- The function `EglComponentPeer::setBounds`. -/
def setBounds (p : EglComponentPeer) (r : Rectangle) (_isNowFullScreen : Bool) :
    EglComponentPeer :=
  if p.bounds = r then p
  else
    let p1 := p.emit (.log ("EGL: " ++ p.componentName ++ " bounds: " ++ r.toString))
    { p1 with bounds := r }

/-- The function `EglComponentPeer::getBounds`. -/
def getBounds (p : EglComponentPeer) : Rectangle := p.bounds

/-- The function `EglComponentPeer::isFullScreen`. -/
def isFullScreen (p : EglComponentPeer) : Bool := p.fullScreen

/-- The function `EglComponentPeer::setFullScreen`; `userArea` is
`Desktop::getInstance().getDisplays().getMainDisplay().userArea`. -/
def setFullScreen (p : EglComponentPeer) (userArea : Rectangle) (shouldBeFullScreen : Bool) :
    EglComponentPeer :=
  let r := if shouldBeFullScreen then userArea else p.lastNonFullscreenBounds
  let r := if !shouldBeFullScreen && r.isEmpty then p.getBounds else r
  let p1 := if !r.isEmpty then p.setBounds r shouldBeFullScreen else p
  p1.emit (.componentRepaint p1.self.component)

/-- The function `EglComponentPeer::toFront`. -/
def toFront (p : EglComponentPeer) (makeActive : Bool) : EglComponentPeer :=
  p.emit (.log ("EGL: peer to front " ++ (if makeActive then "1" else "0")))

/-- The call `handleMouseEvent (index, position, modifiers, time)` on this peer. -/
def handleMouseEvent (p : EglComponentPeer) (index : Int) (position : Point)
    (modifiers : Nat) (time : Int) : EglComponentPeer :=
  p.emit (.peerHandleMouseEvent p.self.ptr index position modifiers time)

/-- The macro `jassert (index < 64)`. -/
def assertIndex (p : EglComponentPeer) (index : Int) : EglComponentPeer :=
  if index < 64 then p else p.emit .assertionFailure

/-- The `int` expression `1 << (index & 63)`; on a two's complement `int` the
value of `index & 63` is `index` modulo 64. -/
def touchBit (t : ShiftTarget) (index : Int) : Nat :=
  shiftLeftOne t (index % 64).toNat

/-- The function `EglComponentPeer::handleMouseDragCallback`. -/
def handleMouseDragCallback (K : ModifierFlags) (t : ShiftTarget) (p : EglComponentPeer)
    (index : Int) (pos : PointF) (time : Int) : EglComponentPeer :=
  let p1 := { p with lastMousePos := pos }
  let p2 := p1.assertIndex index
  let p3 := { p2 with touchesDown := p2.touchesDown ||| signExtend32 (touchBit t index) }
  let mods := ModifierKeys.withFlags
    (ModifierKeys.withoutMouseButtons K p3.currentModifiers) K.leftButtonModifier
  let p4 := { p3 with currentModifiers := mods }
  p4.handleMouseEvent index pos.toInt
    (ModifierKeys.withFlags (ModifierKeys.withoutMouseButtons K p4.currentModifiers)
      K.leftButtonModifier) time

/-- The function `EglComponentPeer::handleMouseDownCallback`; `isValidPeer` is the answer of
`isValidPeer (this)` after the first event has been delivered. -/
def handleMouseDownCallback (K : ModifierFlags) (t : ShiftTarget) (isValidPeer : Bool)
    (p : EglComponentPeer) (index : Int) (pos : PointF) (time : Int) : EglComponentPeer :=
  let p1 := { p with lastMousePos := pos }
  let p2 := p1.handleMouseEvent index pos.toInt
    (ModifierKeys.withoutMouseButtons K p1.currentModifiers) time
  if isValidPeer then handleMouseDragCallback K t p2 index pos time else p2

/-- The function `EglComponentPeer::handleMouseUpCallback`. -/
def handleMouseUpCallback (K : ModifierFlags) (t : ShiftTarget) (p : EglComponentPeer)
    (index : Int) (pos : PointF) (time : Int) : EglComponentPeer :=
  let p1 := { p with lastMousePos := pos }
  let p2 := p1.assertIndex index
  let p3 := { p2 with touchesDown :=
    p2.touchesDown &&& signExtend32 (ModifierKeys.complement32 (touchBit t index)) }
  let p4 := if p3.touchesDown = 0 then
      { p3 with currentModifiers := ModifierKeys.withoutMouseButtons K p3.currentModifiers }
    else p3
  p4.handleMouseEvent index pos.toInt
    (ModifierKeys.withoutMouseButtons K p4.currentModifiers) time

/-- The function `EglComponentPeer::handleScreenSizeChange`; `userArea` is the
usable area of the main display at the time of the call. -/
def handleScreenSizeChange (p : EglComponentPeer) (userArea : Rectangle) : EglComponentPeer :=
  let p1 := p.emit .peerBaseHandleScreenSizeChange
  if p1.isFullScreen then p1.setFullScreen userArea true else p1

/-- The function `EglComponentPeer::getScreenPosition`. -/
def getScreenPosition (p : EglComponentPeer) : Point := p.bounds.getTopLeft

/-- The function `EglComponentPeer::localToGlobal`. -/
def localToGlobal (p : EglComponentPeer) (relativePosition : Point) : Point :=
  relativePosition.add p.getScreenPosition

/-- The function `EglComponentPeer::globalToLocal`. -/
def globalToLocal (p : EglComponentPeer) (screenPosition : Point) : Point :=
  screenPosition.sub p.getScreenPosition

/-- The function `EglComponentPeer::toBehind`; `otherName` is the name of the
component of the other peer. -/
def toBehind (p : EglComponentPeer) (otherName : String) : EglComponentPeer :=
  p.emit (.log ("EGL: peer to behind of " ++ otherName))

/-- The function `EglComponentPeer::handleKeyDownCallback`. -/
def handleKeyDownCallback (p : EglComponentPeer) (k kc : Int) : EglComponentPeer :=
  p.emit (.peerHandleKeyPress k kc)

/-- The function `EglComponentPeer::handleKeyUpCallback`, whose body is empty. -/
def handleKeyUpCallback (p : EglComponentPeer) (_k _kc : Int) : EglComponentPeer := p

/-- The function `EglComponentPeer::handleFocusChangeCallback`. -/
def handleFocusChangeCallback (p : EglComponentPeer) (hasFocus : Bool) : EglComponentPeer :=
  if hasFocus then p.emit .peerHandleFocusGain else p.emit .peerHandleFocusLoss

/-- The member functions of `EglComponentPeer` whose body is empty or only
returns a constant: `setVisible`, `setTitle`, `setMinimised`, `setIcon`,
`setAlwaysOnTop`, `grabFocus`, `textInputRequired`, `dismissPendingTextInput`,
`repaint`, `performAnyPendingRepaintsNow` and `setAlpha`. -/
def emptyBody (p : EglComponentPeer) : EglComponentPeer := p

/-- A call made on the peer by the platform: `toFront` is the function of this
class, `handleMouseEvent` the one of the base class; any other call does not
reach the peer. -/
def deliver (p : EglComponentPeer) : Effect → EglComponentPeer
  | .peerToFront _ makeActive => p.toFront makeActive
  | .peerHandleMouseEvent _ index position modifiers time =>
    p.handleMouseEvent index position modifiers time
  | _ => p

/-- The calls of a list delivered to the peer one after the other. -/
def deliverAll (p : EglComponentPeer) (calls : List Effect) : EglComponentPeer :=
  calls.foldl deliver p

end EglComponentPeer

namespace ModifierKeys

/-- The function `ModifierKeys::getCurrentModifiersRealtime`: it returns the static
`EglComponentPeer::currentModifiers`. -/
def getCurrentModifiersRealtime (p : EglComponentPeer) : Nat := p.currentModifiers

/-- The function `ModifierKeys::updateCurrentModifiers`: the value it installs in
`ModifierKeys::currentModifiers`, which is the static
`EglComponentPeer::currentModifiers`. -/
def updateCurrentModifiers (p : EglComponentPeer) : Nat := p.currentModifiers

end ModifierKeys

/-- One call of a member function of `EglComponentPeer` that a holder of the peer
can make, with the answers of the collaborators it reads. -/
inductive PeerCall where
  | setBounds (r : Rectangle) (isNowFullScreen : Bool)
  | setFullScreen (userArea : Rectangle) (shouldBeFullScreen : Bool)
  | handleScreenSizeChange (userArea : Rectangle)
  | toFront (makeActive : Bool)
  | toBehind (otherName : String)
  | handleMouseDownCallback (isValidPeer : Bool) (index : Int) (pos : PointF) (time : Int)
  | handleMouseDragCallback (index : Int) (pos : PointF) (time : Int)
  | handleMouseUpCallback (index : Int) (pos : PointF) (time : Int)
  | handleKeyDownCallback (k kc : Int)
  | handleKeyUpCallback (k kc : Int)
  | handleFocusChangeCallback (hasFocus : Bool)
  | emptyBody
deriving DecidableEq, Repr

/-- Performs one call on the peer. -/
def PeerCall.apply (K : ModifierFlags) (t : ShiftTarget) (p : EglComponentPeer) :
    PeerCall → EglComponentPeer
  | .setBounds r f => p.setBounds r f
  | .setFullScreen userArea f => p.setFullScreen userArea f
  | .handleScreenSizeChange userArea => p.handleScreenSizeChange userArea
  | .toFront m => p.toFront m
  | .toBehind n => p.toBehind n
  | .handleMouseDownCallback v index pos time =>
    EglComponentPeer.handleMouseDownCallback K t v p index pos time
  | .handleMouseDragCallback index pos time =>
    EglComponentPeer.handleMouseDragCallback K t p index pos time
  | .handleMouseUpCallback index pos time =>
    EglComponentPeer.handleMouseUpCallback K t p index pos time
  | .handleKeyDownCallback k kc => p.handleKeyDownCallback k kc
  | .handleKeyUpCallback k kc => p.handleKeyUpCallback k kc
  | .handleFocusChangeCallback f => p.handleFocusChangeCallback f
  | .emptyBody => p.emptyBody

/-- Performs the calls from left to right. -/
def runPeerCalls (K : ModifierFlags) (t : ShiftTarget) (p : EglComponentPeer)
    (calls : List PeerCall) : EglComponentPeer :=
  calls.foldl (PeerCall.apply K t) p

/-! ## The GPU context -/

/-- The members of `OpenGLPixelFormat` that the constructor of the native context
reads. -/
structure OpenGLPixelFormat where
  redBits : Int
  greenBits : Int
  blueBits : Int
  depthBufferBits : Int
deriving DecidableEq, Repr

/-- The answers of the EGL library during the construction of a native context. -/
structure EglAnswers where
  /-- whether `eglChooseConfig` returns `EGL_TRUE` -/
  chooseConfigOk : Bool
  /-- the number it stores in `numConfigs` -/
  numConfigs : Int
  /-- the configuration it stores in `config`; `none` is the null pointer -/
  chosenConfig : Option Nat
  /-- the value of `eglGetError()` -/
  error : Int
  /-- the result of `eglCreateWindowSurface`; `none` is `EGL_NO_SURFACE` -/
  windowSurface : Option Nat
deriving DecidableEq, Repr

/-- The object `OpenGLContext::NativeContext`, together with the context that EGL
holds current on the calling thread (the value of `eglGetCurrentContext()`). For
`context`, `surface` and `currentContext`, `none` is `EGL_NO_CONTEXT` or
`EGL_NO_SURFACE`. -/
structure NativeContext where
  config : Option Nat
  context : Option Nat
  surface : Option Nat
  swapFrames : Int
  bounds : Rectangle
  sharedContext : Option Nat
  /-- the value of `eglGetCurrentContext()` on the calling thread -/
  currentContext : Option Nat
  /-- the calls made so far, oldest first -/
  trace : List Effect
deriving DecidableEq, Repr

namespace NativeContext

/-- Appends one call to the trace. -/
def emit (nc : NativeContext) (e : Effect) : NativeContext :=
  { nc with trace := nc.trace ++ [e] }

/-- The constructor `NativeContext (component, pixelFormat, shareContext, …)`.
`nativeWindow` is the global of that name and `currentContext` the context
current on the constructing thread. The constructor always returns. -/
def new (componentBounds : Rectangle) (pixelFormat : OpenGLPixelFormat)
    (shareContext : Option Nat) (nativeWindow : Nat) (currentContext : Option Nat)
    (egl : EglAnswers) : NativeContext :=
  let nc0 : NativeContext :=
    { config := none, context := none, surface := none, swapFrames := 0,
      bounds := ⟨0, 0, 0, 0⟩, sharedContext := shareContext,
      currentContext := currentContext, trace := [] }
  let nc1 := { nc0 with bounds := componentBounds }
  let nc2 := nc1.emit (.eglChooseConfig pixelFormat.depthBufferBits pixelFormat.redBits
    pixelFormat.greenBits pixelFormat.blueBits)
  if !egl.chooseConfigOk then
    (nc2.emit .eglGetError).emit
      (.log ("Failed to choose config (eglError: " ++ toString egl.error ++ ")"))
  else
    let nc3 := { nc2 with config := egl.chosenConfig }
    if egl.numConfigs ≠ 1 then
      nc3.emit (.log ("Didn't get exactly one config, but " ++ toString egl.numConfigs))
    else
      let nc4 := nc3.emit (.eglCreateWindowSurface nc3.config nativeWindow)
      let nc5 := { nc4 with surface := egl.windowSurface }
      if nc5.surface = none then
        (nc5.emit .eglGetError).emit
          (.log ("Unable to create EGL surface (eglError: " ++ toString egl.error ++ ")"))
      else
        nc5.emit (.log "EGL: Surface was created")

/-- The destructor `~NativeContext()`; `destroyed` is the answer of
`eglDestroySurface`. -/
def delete (nc : NativeContext) (destroyed : Bool) : NativeContext :=
  let nc1 := nc.emit (.eglDestroySurface nc.surface)
  if !destroyed then nc1.emit (.log "EGL: surface not destroyed") else nc1

/-- The function `NativeContext::makeActive`; `madeCurrent` is the answer of
`eglMakeCurrent`, which is asked only when context and surface are both set. A
successful `eglMakeCurrent` makes the context current on the calling thread. -/
def makeActive (nc : NativeContext) (madeCurrent : Bool) : Bool × NativeContext :=
  if nc.context = none then (false, nc)
  else if nc.surface = none then (false, nc)
  else
    let nc1 := nc.emit (.eglMakeCurrent nc.surface nc.surface nc.context)
    if madeCurrent then (true, { nc1 with currentContext := nc.context })
    else (false, nc1)

/-- The function `NativeContext::isActive`. -/
def isActive (nc : NativeContext) : Bool :=
  decide (nc.currentContext = nc.context) && decide (nc.context ≠ none)

/-- The function `NativeContext::deactivateCurrentContext`; `released` is the
answer of `eglMakeCurrent`. A successful release leaves no context current. -/
def deactivateCurrentContext (nc : NativeContext) (released : Bool) : NativeContext :=
  let nc1 := nc.emit (.eglMakeCurrent none none none)
  if released then { nc1 with currentContext := none }
  else nc1.emit (.log "EGL: could not deactivate context")

/-- The function `NativeContext::shutdownOnRenderThread`; `released` and
`destroyed` are the answers of `eglMakeCurrent` and `eglDestroyContext`. -/
def shutdownOnRenderThread (nc : NativeContext) (released destroyed : Bool) : NativeContext :=
  let nc1 := nc.deactivateCurrentContext released
  let nc2 := nc1.emit (.eglDestroyContext nc1.context)
  let nc3 := if !destroyed then nc2.emit (.log "EGL: Context not destroyed") else nc2
  { nc3 with context := none }

/-- The function `NativeContext::swapBuffers`. -/
def swapBuffers (nc : NativeContext) : NativeContext :=
  nc.emit (.eglSwapBuffers nc.surface)

/-- The function `NativeContext::updateWindowPosition`. -/
def updateWindowPosition (nc : NativeContext) (newBounds : Rectangle) : NativeContext :=
  { nc with bounds := newBounds }

/-- The function `NativeContext::setSwapInterval`; `accepted` is the answer of
`eglSwapInterval`, which is asked only when the interval differs. -/
def setSwapInterval (nc : NativeContext) (numFramesPerSwap : Int) (accepted : Bool) :
    Bool × NativeContext :=
  if numFramesPerSwap = nc.swapFrames then (true, nc)
  else
    let nc1 := nc.emit (.eglSwapInterval numFramesPerSwap)
    if !accepted then (false, nc1)
    else (true, { nc1 with swapFrames := numFramesPerSwap })

/-- The function `NativeContext::getSwapInterval`. -/
def getSwapInterval (nc : NativeContext) : Int := nc.swapFrames

/-- The function `NativeContext::createdOk`. -/
def createdOk (_nc : NativeContext) : Bool := true

end NativeContext

/-! ## Sequences of peer registrations -/

/-- One call on the peer registry. -/
inductive PeerOp where
  | addPeer (peer : ComponentPeer)
  | removePeer (peer : ComponentPeer)
deriving DecidableEq, Repr

/-- Performs one registry call. -/
def PeerOp.apply (s : EglXcbPlatform) : PeerOp → Option EglXcbPlatform
  | .addPeer p => some (s.addPeer p)
  | .removePeer p => s.removePeer p

/-- Performs the calls from left to right; stops at the first that ends the run. -/
def runPeerOps (s : EglXcbPlatform) : List PeerOp → Option EglXcbPlatform
  | [] => some s
  | op :: rest => (op.apply s).bind (fun s1 => runPeerOps s1 rest)

/-- The calling discipline "removePeer is never called while the peer list is
empty", for a registry that currently holds `ps`. -/
def neverRemovesFromEmpty : List Nat → List PeerOp → Prop
  | _, [] => True
  | ps, .addPeer p :: rest => neverRemovesFromEmpty (ps ++ [p.ptr]) rest
  | ps, .removePeer p :: rest => ps ≠ [] ∧ neverRemovesFromEmpty (ps.erase p.ptr) rest

/-! ## A concrete run

One display, one window: the platform is obtained, the peer `1` of component
`10` is registered, and the X server delivers events for the left button at
`(10, 20)` with time stamp `1000`. -/

namespace Scenario

/-- Xlib and EGL succeed; the display pointer is `7`. -/
def env : EglXcbPlatform.NativeEnv :=
  { xOpenDisplay := some 7, eglBindAPI := true, eglGetDisplay := fun d => d,
    eglInitialize := fun d => d.isSome }

/-- The platform right after the first `getInstance()`: identifiers start at
`100` and the six atoms are `11 … 16`. -/
def started : Option EglXcbPlatform :=
  EglXcbPlatform.getInstance env 100 [11, 12, 13, 14, 15, 16] [] none

/-- The peer `1` wraps component `10`. -/
def peer : ComponentPeer := { ptr := 1, component := 10 }

/-- The function `Component::getPeer`: component `10` has peer `1`. -/
def getPeer : Nat → Option Nat := fun c => if c = 10 then some 1 else none

/-- The platform with the peer registered. -/
def withPeer : Option EglXcbPlatform :=
  started.bind (fun s => some (s.addPeer peer))

/-- The state `started` holds. -/
def startedState : EglXcbPlatform := started.getD (EglXcbPlatform.new 0 [] [])

/-- The calls "add the peer, remove it again". -/
def addThenRemove : List PeerOp := [.addPeer peer, .removePeer peer]

/-- The platform after `addThenRemove`. -/
def afterAddThenRemove : EglXcbPlatform :=
  (runPeerOps startedState addThenRemove).getD startedState

/-- The platform with the peer registered and an empty call record. -/
def listening : EglXcbPlatform :=
  { startedState.addPeer peer with trace := [] }

/-- A button event of the given code for the left button (detail `1`) at
`(10, 20)` with time `1000`, as 32 bytes. -/
def leftButtonEvent (code : Nat) : xcb_generic_event_t :=
  ⟨[code, 1, 0, 0, 232, 3, 0, 0, 0, 0, 0, 0, 0, 0, 0, 0,
    0, 0, 0, 0, 0, 0, 0, 0, 10, 0, 20, 0, 0, 0, 1, 0]⟩

/-- A client message of the given format whose `type` is atom `13`
(`WM_PROTOCOLS`) and whose first data word is atom `14` (`WM_DELETE_WINDOW`). -/
def closeRequest (format : Nat) : xcb_generic_event_t :=
  ⟨[33, format, 0, 0, 101, 0, 0, 0, 13, 0, 0, 0, 14, 0, 0, 0,
    0, 0, 0, 0, 0, 0, 0, 0, 0, 0, 0, 0, 0, 0, 0, 0]⟩

/-- A peer constructed for a component named `win` with bounds `0 0 100 100`. -/
def freshPeer : EglComponentPeer :=
  EglComponentPeer.new peer "win" ⟨0, 0, 100, 100⟩

/-- The usable area of the main display. -/
def userArea : Rectangle := ⟨0, 0, 320, 240⟩

/-- The motion event and the button events at `(10, 20)`: code `6` is motion. -/
def motionEvent : xcb_generic_event_t := leftButtonEvent 6

/-- The platform after the only peer has been added and removed again, when the
connection then delivers a motion event. -/
def motionAfterRemoval : EglXcbPlatform :=
  { afterAddThenRemove with eventQueue := [motionEvent] }

/-- The listening platform with a press and then a motion queued. -/
def twoQueued : EglXcbPlatform :=
  { listening with eventQueue := [leftButtonEvent 4, motionEvent] }

/-- The pixel format asked for: eight bits per colour, sixteen of depth. -/
def pixelFormat : OpenGLPixelFormat :=
  { redBits := 8, greenBits := 8, blueBits := 8, depthBufferBits := 16 }

/-- EGL finds the single configuration `3` and creates the surface `5`. -/
def eglFine : EglAnswers :=
  { chooseConfigOk := true, numConfigs := 1, chosenConfig := some 3, error := 12288,
    windowSurface := some 5 }

/-- EGL reports that no configuration matches. -/
def eglNoConfig : EglAnswers :=
  { chooseConfigOk := true, numConfigs := 0, chosenConfig := none, error := 12288,
    windowSurface := some 5 }

/-- A native context for window `101` with surface `5`, whose context `9` has
been created. -/
def readyContext : NativeContext :=
  { NativeContext.new ⟨0, 0, 320, 240⟩ pixelFormat none 101 none eglFine with
    context := some 9, trace := [] }

/-- An expose event for window `101` whose padding byte is `32`, whose `x` and `y`
are `13` and `0`, and whose `width` and `height` are `14` and `0`. -/
def exposeEvent : xcb_generic_event_t :=
  ⟨[12, 32, 0, 0, 101, 0, 0, 0, 13, 0, 0, 0, 14, 0, 0, 0,
    0, 0, 0, 0, 0, 0, 0, 0, 0, 0, 0, 0, 0, 0, 0, 0]⟩

/-- Xlib opens the display `7`; `eglGetDisplay` answers `EGL_NO_DISPLAY`, which
`eglInitialize` refuses. -/
def envNoEglDisplay : EglXcbPlatform.NativeEnv :=
  { xOpenDisplay := some 7, eglBindAPI := true, eglGetDisplay := fun _ => none,
    eglInitialize := fun d => d.isSome }

/-- Xlib and EGL succeed, except that the GL ES API cannot be bound. -/
def envNoBind : EglXcbPlatform.NativeEnv :=
  { xOpenDisplay := some 7, eglBindAPI := false, eglGetDisplay := fun d => d,
    eglInitialize := fun d => d.isSome }

end Scenario

/-! ## Theorems -/

section PeerRegistry

open EglXcbPlatform

theorem getScreenSize_peers (s : EglXcbPlatform) :
    s.getScreenSize.2.peers = s.peers ∧ s.getScreenSize.2.context = s.context := by
  unfold getScreenSize
  split <;> simp [emit]

theorem addPeer_peers (s : EglXcbPlatform) (p : ComponentPeer) :
    (s.addPeer p).peers = s.peers ++ [p.ptr] := by
  unfold addPeer
  cases hc : s.context <;>
    simp [getScreenSize_peers, createNativeWindow, xcb_generate_id, emit]

theorem addPeer_context (s : EglXcbPlatform) (p : ComponentPeer) :
    (s.addPeer p).context.isSome = true := by
  unfold addPeer
  cases hc : s.context <;>
    simp [hc, getScreenSize_peers, createNativeWindow, xcb_generate_id, emit]

theorem removePeer_spec (s : EglXcbPlatform) (p : ComponentPeer)
    (hinv : s.context.isSome = true ↔ s.peers ≠ []) (hne : s.peers ≠ []) :
    ∃ s1, s.removePeer p = some s1 ∧ s1.peers = s.peers.erase p.ptr ∧
      (s1.context.isSome = true ↔ s1.peers ≠ []) := by
  have hctx : s.context.isSome = true := hinv.2 hne
  obtain ⟨c, hc⟩ := Option.isSome_iff_exists.1 hctx
  by_cases hlen : (s.peers.erase p.ptr).length = 0
  · have hnil : s.peers.erase p.ptr = [] := List.length_eq_zero.1 hlen
    refine ⟨_, by simp only [removePeer, hlen, hc, if_true]; rfl, ?_, ?_⟩
    · simp [emit]
    · simp [emit, hnil]
  · have hcons : s.peers.erase p.ptr ≠ [] := fun h => hlen (by rw [h]; rfl)
    refine ⟨_, by simp only [removePeer, hlen, if_false]; rfl, ?_, ?_⟩
    · rfl
    · simp [hcons, hc]

theorem runPeerOps_invariant (ops : List PeerOp) :
    ∀ s : EglXcbPlatform, (s.context.isSome = true ↔ s.peers ≠ []) →
      neverRemovesFromEmpty s.peers ops →
      ∃ s1, runPeerOps s ops = some s1 ∧ (s1.context.isSome = true ↔ s1.peers ≠ []) := by
  induction ops with
  | nil => intro s hinv _; exact ⟨s, rfl, hinv⟩
  | cons op rest ih =>
    intro s hinv hd
    cases op with
    | addPeer p =>
      have hd1 : neverRemovesFromEmpty (s.addPeer p).peers rest := by
        rw [addPeer_peers]; exact hd
      have hinv1 : (s.addPeer p).context.isSome = true ↔ (s.addPeer p).peers ≠ [] := by
        simp [addPeer_context, addPeer_peers]
      obtain ⟨s2, h2, hinv2⟩ := ih (s.addPeer p) hinv1 hd1
      exact ⟨s2, by simpa [runPeerOps, PeerOp.apply] using h2, hinv2⟩
    | removePeer p =>
      obtain ⟨hne, hrest⟩ := hd
      obtain ⟨s1, h1, hp1, hinv1⟩ := removePeer_spec s p hinv hne
      obtain ⟨s2, h2, hinv2⟩ := ih s1 hinv1 (by rw [hp1]; exact hrest)
      exact ⟨s2, by simpa [runPeerOps, PeerOp.apply, h1] using h2, hinv2⟩

/-- C1: starting from a platform with an empty peer list and no GPU context,
every sequence of addPeer / removePeer calls that never calls removePeer on an
empty peer list runs to completion, and afterwards the platform holds a GPU
context if and only if the peer list is non-empty. -/
theorem context_iff_peers_nonempty (s : EglXcbPlatform) (ops : List PeerOp)
    (hpeers : s.peers = []) (hctx : s.context = none)
    (hops : neverRemovesFromEmpty [] ops) :
    ∃ s1, runPeerOps s ops = some s1 ∧ (s1.context.isSome = true ↔ s1.peers ≠ []) :=
  runPeerOps_invariant ops s (by simp [hpeers, hctx]) (by rw [hpeers]; exact hops)

/-- C1 witness: two peers are added, both are removed and one is added again. -/
theorem context_iff_peers_nonempty_witness :
    (EglXcbPlatform.new 100 [1, 2, 3, 4, 5, 6] []).peers = [] ∧
    (EglXcbPlatform.new 100 [1, 2, 3, 4, 5, 6] []).context = none ∧
    neverRemovesFromEmpty []
      [.addPeer ⟨1, 10⟩, .addPeer ⟨2, 20⟩, .removePeer ⟨1, 10⟩, .removePeer ⟨2, 20⟩,
       .addPeer ⟨3, 30⟩] ∧
    ∃ s1, runPeerOps (EglXcbPlatform.new 100 [1, 2, 3, 4, 5, 6] [])
        [.addPeer ⟨1, 10⟩, .addPeer ⟨2, 20⟩, .removePeer ⟨1, 10⟩, .removePeer ⟨2, 20⟩,
         .addPeer ⟨3, 30⟩] = some s1 ∧
      (s1.context.isSome = true ↔ s1.peers ≠ []) :=
  ⟨rfl, rfl, by simp [neverRemovesFromEmpty],
   context_iff_peers_nonempty (EglXcbPlatform.new 100 [1, 2, 3, 4, 5, 6] [])
    [.addPeer ⟨1, 10⟩, .addPeer ⟨2, 20⟩, .removePeer ⟨1, 10⟩, .removePeer ⟨2, 20⟩,
     .addPeer ⟨3, 30⟩] rfl rfl (by simp [neverRemovesFromEmpty])⟩

end PeerRegistry

/-! ### The native window (C2) -/

section NativeWindow

open EglXcbPlatform

/-- C2 (code evaluated at the failing input): one peer is added and removed
again. The native window `101` is created at the 0 → 1 transition; at the 1 → 0
transition the context is detached and deleted, but no `xcb_destroy_window`
follows: the last two calls of the run are the context's. -/
theorem native_window_never_destroyed :
    (Scenario.started.bind (fun s =>
        runPeerOps s [.addPeer Scenario.peer, .removePeer Scenario.peer])).map
      (fun s => (s.peers, s.context, s.pimplNativeWindow, s.trace)) =
    some ([], none, 101,
      [.xSetEventQueueOwner 7, .xcbCreateWindow 100 1 1,
       .log "EGL: screen size not set, falling back to 640x480",
       .xcbCreateWindow 101 320 240, .xcbMapWindow 101,
       .xcbInternAtom "_NET_WM_NAME", .xcbInternAtom "UTF8_STRING",
       .xcbInternAtom "WM_PROTOCOLS", .xcbInternAtom "WM_DELETE_WINDOW",
       .xcbInternAtom "_NET_WM_STATE", .xcbInternAtom "_NET_WM_STATE_FULLSCREEN",
       .xcbChangeProperty 101 11 12, .xcbChangeProperty 101 13 4, .xcbFlush,
       .contextCreated, .contextAttachTo 10, .contextTriggerRepaint,
       .peerHandleMovedOrResized 1, .componentSetBounds 10 0 0 320 240,
       .contextDetach, .contextDeleted]) := by
  decide

end NativeWindow

/-! ### The display connection (C3) -/

section Connection

open EglXcbPlatform

theorem getScreenSize_connection (s : EglXcbPlatform) :
    s.getScreenSize.2.connection = s.connection := by
  unfold getScreenSize
  split <;> simp [emit]

theorem addPeer_connection (s : EglXcbPlatform) (p : ComponentPeer) :
    (s.addPeer p).connection = s.connection := by
  unfold addPeer
  cases hc : s.context <;>
    simp [hc, getScreenSize_connection, createNativeWindow, xcb_generate_id, emit]

theorem removePeer_connection (s s1 : EglXcbPlatform) (p : ComponentPeer)
    (h : s.removePeer p = some s1) : s1.connection = s.connection := by
  unfold removePeer at h
  simp only at h
  split at h
  · split at h
    · exact absurd h (by simp)
    · simp only [Option.some.injEq] at h
      rw [← h]
      simp [emit]
  · simp only [Option.some.injEq] at h
    rw [← h]

theorem runPeerOps_connection (ops : List PeerOp) :
    ∀ s s1 : EglXcbPlatform, runPeerOps s ops = some s1 → s1.connection = s.connection := by
  induction ops with
  | nil => intro s s1 h; simp only [runPeerOps, Option.some.injEq] at h; rw [← h]
  | cons op rest ih =>
    intro s s1 h
    cases op with
    | addPeer p =>
      simp only [runPeerOps, PeerOp.apply, Option.some_bind] at h
      rw [ih _ _ h, addPeer_connection]
    | removePeer p =>
      simp only [runPeerOps, PeerOp.apply] at h
      cases hr : s.removePeer p with
      | none => rw [hr] at h; exact absurd h (by simp)
      | some s2 =>
        rw [hr] at h
        simp only [Option.some_bind] at h
        rw [ih _ _ h, removePeer_connection s s2 p hr]

theorem initialisePlatform_connection (env : NativeEnv) (s s1 : EglXcbPlatform)
    (h : s.initialisePlatform env = some s1) :
    s1.connection.isSome = true ∧ s1.peers = s.peers := by
  unfold initialisePlatform at h
  cases hd : env.xOpenDisplay with
  | none => simp [hd] at h
  | some d =>
    simp only [hd, xcb_generate_id, emit, Option.some.injEq] at h
    subst h
    exact ⟨rfl, rfl⟩

theorem initialise_connection (env : NativeEnv) (s s1 : EglXcbPlatform)
    (h : s.initialise env = some s1) :
    s1.connection.isSome = true ∧ s1.peers = s.peers := by
  unfold initialise at h
  cases hp : s.initialisePlatform env with
  | none => simp [hp] at h
  | some s2 =>
    obtain ⟨hc, hpeers⟩ := initialisePlatform_connection env s s2 hp
    simp only [hp] at h
    split_ifs at h <;>
      (simp only [Option.some.injEq] at h
       subst h
       simp [emit, hc, hpeers])

theorem getInstance_connection (env : NativeEnv) (x : Nat) (a : List Nat)
    (q : List xcb_generic_event_t) (s0 : EglXcbPlatform)
    (h : getInstance env x a q none = some s0) :
    s0.connection.isSome = true ∧ s0.peers = [] := by
  unfold getInstance at h
  simp only [EglXcbPlatform.new, Bool.false_eq_true, if_false] at h
  split at h
  · exact absurd h (by simp)
  · rename_i p hp
    obtain ⟨hc, hpeers⟩ := initialise_connection env _ p hp
    simp only [Option.some.injEq] at h
    subst h
    exact ⟨hc, hpeers⟩

/-- C3 (counterexample): after the platform has been obtained and the only peer
has been added and removed again, no peer is registered and yet the display
connection is open; so "open if and only if a peer is registered" fails. -/
theorem connection_open_without_peers :
    ∃ s, Scenario.started.bind (fun s0 =>
          runPeerOps s0 [.addPeer Scenario.peer, .removePeer Scenario.peer]) = some s ∧
      s.peers = [] ∧ s.connection = some 7 ∧
      ¬ (s.connection.isSome = true ↔ s.peers ≠ []) := by
  refine ⟨_, rfl, ?_, ?_, ?_⟩ <;> decide

/-- C3 (amended): from the first `getInstance()` on, the display connection is
open after every sequence of addPeer / removePeer calls, whatever the number of
registered peers (in particular while there is none, as right after
`getInstance()`); only `shutdown()` closes it. -/
theorem connection_open_until_shutdown (env : NativeEnv) (x : Nat) (a : List Nat)
    (q : List xcb_generic_event_t) (ops : List PeerOp) (s0 s : EglXcbPlatform)
    (hstart : getInstance env x a q none = some s0)
    (hrun : runPeerOps s0 ops = some s) :
    s0.peers = [] ∧ s0.connection.isSome = true ∧ s.connection.isSome = true ∧
      s.shutdown.connection = none := by
  obtain ⟨hc, hp⟩ := getInstance_connection env x a q s0 hstart
  refine ⟨hp, hc, ?_, ?_⟩
  · rw [runPeerOps_connection ops s0 s hrun]; exact hc
  · simp [shutdown, shutdownPlatform]

/-- C3 witness (amended): the run of the counterexample. -/
theorem connection_open_until_shutdown_witness :
    getInstance Scenario.env 100 [11, 12, 13, 14, 15, 16] [] none = some Scenario.startedState ∧
    runPeerOps Scenario.startedState Scenario.addThenRemove = some Scenario.afterAddThenRemove ∧
    (Scenario.startedState.peers = [] ∧ Scenario.startedState.connection.isSome = true ∧
      Scenario.afterAddThenRemove.connection.isSome = true ∧
      Scenario.afterAddThenRemove.shutdown.connection = none) :=
  ⟨by decide, by decide,
   connection_open_until_shutdown Scenario.env 100 [11, 12, 13, 14, 15, 16] []
     Scenario.addThenRemove Scenario.startedState Scenario.afterAddThenRemove
     (by decide) (by decide)⟩

end Connection

/-! ### Bounds of the peer (C4, C5) -/

section PeerBounds

open EglComponentPeer

/-- C4: `setBounds` with the stored bounds returns the peer as it was (same
fields, same log), for either value of the flag; hence a second `setBounds (r)`
right after a first one changes nothing: the state and the log are those left
by the first call. -/
theorem setBounds_same_bounds_is_noop (p : EglComponentPeer) (r : Rectangle)
    (flag flag2 : Bool) :
    p.setBounds p.getBounds flag = p ∧
    (p.setBounds p.getBounds flag).trace = p.trace ∧
    (p.setBounds r flag).setBounds r flag2 = p.setBounds r flag := by
  refine ⟨?_, ?_, ?_⟩
  · simp [setBounds, getBounds]
  · simp [setBounds, getBounds]
  · unfold setBounds
    by_cases h : p.bounds = r
    · simp [h]
    · simp [h, emit]

/-- C5 (counterexample): a freshly constructed peer with the non-empty bounds
`0 0 100 100`; after `setFullScreen (true)` and `setFullScreen (false)` its
bounds are the display's user area `0 0 320 240`, not the bounds it had. -/
theorem fullScreen_roundtrip_keeps_user_area :
    Scenario.freshPeer.getBounds = ⟨0, 0, 100, 100⟩ ∧
    Scenario.freshPeer.getBounds.isEmpty = false ∧
    ((Scenario.freshPeer.setFullScreen Scenario.userArea true).setFullScreen
        Scenario.userArea false).getBounds = ⟨0, 0, 320, 240⟩ ∧
    ((Scenario.freshPeer.setFullScreen Scenario.userArea true).setFullScreen
        Scenario.userArea false).getBounds ≠ Scenario.freshPeer.getBounds := by
  decide

theorem setBounds_bounds (p : EglComponentPeer) (r : Rectangle) (flag : Bool) :
    (p.setBounds r flag).bounds = r ∧
    (p.setBounds r flag).lastNonFullscreenBounds = p.lastNonFullscreenBounds := by
  unfold setBounds
  by_cases h : p.bounds = r
  · simp [h]
  · simp [h, emit]

theorem setFullScreen_true_remembered (p : EglComponentPeer) (userArea : Rectangle) :
    (p.setFullScreen userArea true).lastNonFullscreenBounds = p.lastNonFullscreenBounds := by
  unfold setFullScreen
  by_cases h : userArea.isEmpty = true
  · simp [h, emit]
  · simp [h, emit, setBounds_bounds]

/-- C5 (amended): for every peer whose current bounds `b` are non-empty and whose
remembered rectangle `lastNonFullscreenBounds` equals `b`, `setFullScreen (true)`
followed by `setFullScreen (false)` leaves `getBounds()` equal to `b`. -/
theorem fullScreen_roundtrip_restores_remembered (p : EglComponentPeer)
    (userArea userArea2 : Rectangle)
    (hremembered : p.lastNonFullscreenBounds = p.getBounds)
    (hnonempty : p.getBounds.isEmpty = false) :
    ((p.setFullScreen userArea true).setFullScreen userArea2 false).getBounds = p.getBounds := by
  have h1 := setFullScreen_true_remembered p userArea
  rw [hremembered] at h1
  generalize p.setFullScreen userArea true = q at h1
  unfold setFullScreen
  simp only [getBounds] at h1 hnonempty ⊢
  simp [h1, hnonempty, emit, setBounds_bounds]

/-- C5 witness (amended): the peer of the counterexample, once its bounds have
been recorded as the last non-fullscreen rectangle. -/
theorem fullScreen_roundtrip_restores_remembered_witness :
    ({ Scenario.freshPeer with lastNonFullscreenBounds := ⟨0, 0, 100, 100⟩ } :
        EglComponentPeer).lastNonFullscreenBounds =
      ({ Scenario.freshPeer with lastNonFullscreenBounds := ⟨0, 0, 100, 100⟩ } :
        EglComponentPeer).getBounds ∧
    ({ Scenario.freshPeer with lastNonFullscreenBounds := ⟨0, 0, 100, 100⟩ } :
        EglComponentPeer).getBounds.isEmpty = false ∧
    ((({ Scenario.freshPeer with lastNonFullscreenBounds := ⟨0, 0, 100, 100⟩ } :
        EglComponentPeer).setFullScreen Scenario.userArea true).setFullScreen
          Scenario.userArea false).getBounds =
      ({ Scenario.freshPeer with lastNonFullscreenBounds := ⟨0, 0, 100, 100⟩ } :
        EglComponentPeer).getBounds :=
  ⟨by decide, by decide,
   fullScreen_roundtrip_restores_remembered
     { Scenario.freshPeer with lastNonFullscreenBounds := ⟨0, 0, 100, 100⟩ }
     Scenario.userArea Scenario.userArea (by decide) (by decide)⟩

end PeerBounds

/-! ### Touches (C6) -/

section Touches

open EglComponentPeer

theorem complement_bit_clear_below_32 :
    ∀ n, n < 32 → (signExtend32 (ModifierKeys.complement32 (2 ^ n))).testBit n = false := by
  decide

theorem withoutFlags_disjoint (f m : Nat) : ModifierKeys.withoutFlags f m &&& m = 0 := by
  apply Nat.eq_of_testBit_eq
  intro i
  simp only [ModifierKeys.withoutFlags, ModifierKeys.complement32, Nat.testBit_and,
    Nat.testBit_xor, Nat.testBit_two_pow_sub_one, Nat.testBit_mod_two_pow, Nat.zero_testBit]
  by_cases h : i < 32 <;> cases f.testBit i <;> cases m.testBit i <;> simp [h]

/-- For a touch index below 32 the mouse-up clears the bit of that index, whatever
the state before the mouse-down and on either target. -/
theorem touch_below_32_up_clears_bit (K : ModifierFlags) (t : ShiftTarget) (isValidPeer : Bool)
    (p : EglComponentPeer) (n : Nat) (hn : n < 32) (pos pos2 : PointF) (time time2 : Int) :
    (handleMouseUpCallback K t
      (handleMouseDownCallback K t isValidPeer p n pos time) n pos2 time2).touchesDown.testBit n
      = false := by
  have hbit : touchBit t (n : Int) = 2 ^ n := by
    have h64 : ((n : Int) % 64).toNat = n := by omega
    simp [touchBit, shiftLeftOne, h64, hn]
  generalize handleMouseDownCallback K t isValidPeer p n pos time = q
  have : (handleMouseUpCallback K t q n pos2 time2).touchesDown =
      q.touchesDown &&& signExtend32 (ModifierKeys.complement32 (touchBit t (n : Int))) := by
    unfold handleMouseUpCallback handleMouseEvent assertIndex emit
    simp only []
    split <;> split <;> rfl
  rw [this, hbit, Nat.testBit_and, complement_bit_clear_below_32 n hn, Bool.and_false]

/-- Whenever the mask is zero after a mouse-up, the modifiers of the peer hold no
mouse-button flag; this holds for every index. -/
theorem touch_up_all_clear_no_buttons (K : ModifierFlags) (t : ShiftTarget)
    (p : EglComponentPeer) (index : Int) (pos : PointF) (time : Int)
    (hzero : (handleMouseUpCallback K t p index pos time).touchesDown = 0) :
    (handleMouseUpCallback K t p index pos time).currentModifiers &&&
      ModifierKeys.allMouseButtonModifiers K = 0 := by
  unfold handleMouseUpCallback handleMouseEvent assertIndex emit at hzero ⊢
  simp only [] at hzero ⊢
  split_ifs at hzero ⊢ <;>
    first
    | exact withoutFlags_disjoint _ _
    | exact absurd hzero ‹_›

/-- C6 (code evaluated at the failing input): on a fresh peer a drag of touch 31
leaves the mask `0xFFFFFFFF80000000` (the `int` `1 << 31` is sign-extended).
A mouse-down and mouse-up of touch 32 then leave bit 32 of `touchesDown` set, on
either target behaviour of the 32-bit shift `1 << 32`. -/
theorem touch_32_up_leaves_bit_set (t : ShiftTarget) :
    (handleMouseDragCallback ModifierKeys.juceFlags t Scenario.freshPeer 31
        ⟨0, ⟨5, 5⟩⟩ 0).touchesDown = 0xFFFFFFFF80000000 ∧
    (handleMouseUpCallback ModifierKeys.juceFlags t
      (handleMouseDownCallback ModifierKeys.juceFlags t true
        (handleMouseDragCallback ModifierKeys.juceFlags t Scenario.freshPeer 31
          ⟨0, ⟨5, 5⟩⟩ 0)
        32 ⟨0, ⟨5, 5⟩⟩ 1)
      32 ⟨0, ⟨5, 5⟩⟩ 2).touchesDown.testBit 32 = true := by
  cases t <;> decide

end Touches

/-! ### Button events (C7, C8) -/

section Buttons

open EglXcbPlatform

theorem targetPeer_of_context (getPeer : Nat → Option Nat) (s : EglXcbPlatform)
    (comp peer : Nat) (hctx : s.context = some ⟨some comp⟩) (hpeer : getPeer comp = some peer) :
    targetPeer getPeer s = some peer := by
  simp [targetPeer, hctx, hpeer]

/-- C7: for a button `btn` among left, middle and right, any position `p` and
time `t`, and a platform whose GPU context is attached to a component that has
a peer, `handleButtonPress` yields the state in which exactly the button's flag
(left → leftButtonModifier, middle → middleButtonModifier, right →
rightButtonModifier) has been or-ed into the modifier state, every other field
is as before, and the calls `toFront (true)` and one `handleMouseEvent` at `p`
with the updated modifiers and time `t` have been made on that peer; and
`handleGenericEvent` on a button-press event is exactly this call on the
event's fields. -/
theorem buttonPress_adds_flag_and_forwards (K : ModifierFlags) (getPeer : Nat → Option Nat)
    (s : EglXcbPlatform) (ev : xcb_generic_event_t) (p : Point) (btn st t comp peer : Nat)
    (hbtn : btn = XcbKeys.LeftButton ∨ btn = XcbKeys.MiddleButton ∨ btn = XcbKeys.RightButton)
    (hctx : s.context = some ⟨some comp⟩) (hpeer : getPeer comp = some peer)
    (hkind : xcb.response_type ev &&& ModifierKeys.complement32 0x80 = xcb.XCB_BUTTON_PRESS) :
    handleButtonPress K getPeer s p btn st t =
      some { s with
        currentModifiers := s.currentModifiers |||
          (if btn = XcbKeys.LeftButton then K.leftButtonModifier
           else if btn = XcbKeys.MiddleButton then K.middleButtonModifier
           else K.rightButtonModifier),
        trace := s.trace ++
          [.peerToFront peer true,
           .peerHandleMouseEvent peer 0 p
             (s.currentModifiers |||
               (if btn = XcbKeys.LeftButton then K.leftButtonModifier
                else if btn = XcbKeys.MiddleButton then K.middleButtonModifier
                else K.rightButtonModifier)) t] } ∧
    (∀ i, (s.currentModifiers |||
          (if btn = XcbKeys.LeftButton then K.leftButtonModifier
           else if btn = XcbKeys.MiddleButton then K.middleButtonModifier
           else K.rightButtonModifier)).testBit i =
        (s.currentModifiers.testBit i ||
          (if btn = XcbKeys.LeftButton then K.leftButtonModifier
           else if btn = XcbKeys.MiddleButton then K.middleButtonModifier
           else K.rightButtonModifier).testBit i)) ∧
    handleGenericEvent K getPeer s ev =
      handleButtonPress K getPeer s ⟨xcb.event_x ev, xcb.event_y ev⟩
        (xcb.detail ev) (xcb.state ev) (xcb.time ev) := by
  refine ⟨?_, fun i => Nat.testBit_or _ _ _, ?_⟩
  · have htp : ∀ m, targetPeer getPeer { s with currentModifiers := m } = some peer :=
      fun m => targetPeer_of_context getPeer _ comp peer hctx hpeer
    rcases hbtn with h | h | h <;> subst h <;>
      simp [handleButtonPress, translateMouseButton, ModifierKeys.withFlags, htp, emit,
        XcbKeys.LeftButton, XcbKeys.MiddleButton, XcbKeys.RightButton, XcbKeys.NoButton]
  · simp [handleGenericEvent, hkind]

/-- C7 witness: the left button pressed at `(10, 20)` with time `1000`. -/
theorem buttonPress_adds_flag_and_forwards_witness :
    Scenario.listening.context = some ⟨some 10⟩ ∧ Scenario.getPeer 10 = some 1 ∧
    xcb.response_type (Scenario.leftButtonEvent 4) &&& ModifierKeys.complement32 0x80 =
      xcb.XCB_BUTTON_PRESS ∧
    handleButtonPress ModifierKeys.juceFlags Scenario.getPeer Scenario.listening
        ⟨10, 20⟩ 1 0 1000 =
      some { Scenario.listening with
        currentModifiers := 16,
        trace := [.peerToFront 1 true, .peerHandleMouseEvent 1 0 ⟨10, 20⟩ 16 1000] } ∧
    handleGenericEvent ModifierKeys.juceFlags Scenario.getPeer Scenario.listening
        (Scenario.leftButtonEvent 4) =
      handleButtonPress ModifierKeys.juceFlags Scenario.getPeer Scenario.listening
        ⟨10, 20⟩ 1 0 1000 := by
  have h := buttonPress_adds_flag_and_forwards ModifierKeys.juceFlags Scenario.getPeer
    Scenario.listening (Scenario.leftButtonEvent 4) ⟨10, 20⟩ 1 0 1000 10 1
    (Or.inl rfl) (by decide) (by decide) (by decide)
  exact ⟨by decide, by decide, by decide, h.1.trans (by decide), h.2.2.trans (by decide)⟩

/-- C8 (code evaluated at the failing input): with the left button down, the
release event for the left button at `(10, 20)` clears the flag, and two
`handleMouseEvent` calls reach the peer: the one of `handleButtonRelease` and
the one of `handleMotionNotify`, which the missing `break` runs into. -/
theorem buttonRelease_dispatches_twice :
    (handleGenericEvent ModifierKeys.juceFlags Scenario.getPeer
        { Scenario.listening with currentModifiers := 16 }
        (Scenario.leftButtonEvent 5)).map (fun s => (s.currentModifiers, s.trace)) =
      some (0, [.peerHandleMouseEvent 1 0 ⟨10, 20⟩ 0 1000,
                .peerHandleMouseEvent 1 0 ⟨10, 20⟩ 0 1000]) := by
  decide

end Buttons

/-! ### Close requests (C9) -/

section CloseRequest

open EglXcbPlatform

/-- C9 (counterexample): a client message of format 8 whose type is the
`WM_PROTOCOLS` atom and whose first 32-bit data word is the `WM_DELETE_WINDOW`
atom raises no quit signal: the platform is returned as it was. -/
theorem closeRequest_format8_not_quit :
    xcb.response_type (Scenario.closeRequest 8) &&& ModifierKeys.complement32 0x80 =
      xcb.XCB_CLIENT_MESSAGE ∧
    xcb.type (Scenario.closeRequest 8) = Scenario.listening.atom XcbAtoms.wmProtocols ∧
    xcb.data32_0 (Scenario.closeRequest 8) = Scenario.listening.atom XcbAtoms.wmDeleteWindow ∧
    handleGenericEvent ModifierKeys.juceFlags Scenario.getPeer Scenario.listening
      (Scenario.closeRequest 8) = some Scenario.listening ∧
    Effect.quit ∉ Scenario.listening.trace := by
  decide

/-- C9 (amended): for every client-message event, if its format is 32, its type
is the `WM_PROTOCOLS` atom and its first data word is the `WM_DELETE_WINDOW`
atom, `handleGenericEvent` raises the quit signal exactly once and does nothing
else; otherwise it raises no quit signal and leaves the platform as it was. -/
theorem clientMessage_quits_iff_close_request (K : ModifierFlags) (getPeer : Nat → Option Nat)
    (s : EglXcbPlatform) (ev : xcb_generic_event_t)
    (hkind : xcb.response_type ev &&& ModifierKeys.complement32 0x80 = xcb.XCB_CLIENT_MESSAGE) :
    (xcb.format ev = 32 ∧ xcb.type ev = s.atom XcbAtoms.wmProtocols ∧
        xcb.data32_0 ev = s.atom XcbAtoms.wmDeleteWindow →
      handleGenericEvent K getPeer s ev = some { s with trace := s.trace ++ [.quit] }) ∧
    (¬ (xcb.format ev = 32 ∧ xcb.type ev = s.atom XcbAtoms.wmProtocols ∧
        xcb.data32_0 ev = s.atom XcbAtoms.wmDeleteWindow) →
      handleGenericEvent K getPeer s ev = some s) := by
  constructor <;> intro h <;>
    simp [handleGenericEvent, hkind, clientMessageCase, emit, h, xcb.XCB_CLIENT_MESSAGE,
      xcb.XCB_BUTTON_PRESS, xcb.XCB_BUTTON_RELEASE, xcb.XCB_MOTION_NOTIFY, xcb.XCB_EXPOSE]

/-- C9 witness (amended): the close request in format 32. -/
theorem clientMessage_quits_iff_close_request_witness :
    xcb.response_type (Scenario.closeRequest 32) &&& ModifierKeys.complement32 0x80 =
      xcb.XCB_CLIENT_MESSAGE ∧
    handleGenericEvent ModifierKeys.juceFlags Scenario.getPeer Scenario.listening
      (Scenario.closeRequest 32) =
        some { Scenario.listening with trace := Scenario.listening.trace ++ [.quit] } :=
  ⟨by decide,
   (clientMessage_quits_iff_close_request ModifierKeys.juceFlags Scenario.getPeer
      Scenario.listening (Scenario.closeRequest 32) (by decide)).1 (by decide)⟩

end CloseRequest

/-! ### Screen size (C10) -/

section ScreenSize

open EglXcbPlatform

theorem getScreenSize_of_set (s : EglXcbPlatform) (h : s.screenSize.isOrigin = false) :
    s.getScreenSize = (s.screenSize, s) := by
  unfold getScreenSize
  rw [if_neg (by rw [h]; decide)]

/-- C10: for a backend whose `screenSize` is still the origin, the first
`getScreenSize()` returns `(320, 240)` and adds exactly one log line; each of
any number of later calls returns `(320, 240)` again and leaves the state, and
so the log, as the first call left it. -/
theorem getScreenSize_fallback_logged_once (s : EglXcbPlatform)
    (hunset : s.screenSize.isOrigin = true) :
    s.getScreenSize.1 = ⟨320, 240⟩ ∧
    s.getScreenSize.2.trace =
      s.trace ++ [.log "EGL: screen size not set, falling back to 640x480"] ∧
    ∀ n : Nat,
      ((fun st : EglXcbPlatform => st.getScreenSize.2)^[n] s.getScreenSize.2).getScreenSize =
        (⟨320, 240⟩, s.getScreenSize.2) := by
  have hfirst : s.getScreenSize =
      (⟨320, 240⟩, ({ s with screenSize := ⟨320, 240⟩ } : EglXcbPlatform).emit
        (.log "EGL: screen size not set, falling back to 640x480")) := by
    unfold getScreenSize
    rw [if_pos hunset]
    rfl
  have hsize : s.getScreenSize.2.screenSize = ⟨320, 240⟩ := by rw [hfirst]; rfl
  have hfix : s.getScreenSize.2.getScreenSize = (⟨320, 240⟩, s.getScreenSize.2) := by
    rw [getScreenSize_of_set _ (by rw [hsize]; rfl), hsize]
  refine ⟨by rw [hfirst], by rw [hfirst]; rfl, ?_⟩
  intro n
  induction n with
  | zero => exact hfix
  | succ k ih =>
    rw [Function.iterate_succ_apply]
    rw [hfix]
    exact ih

/-- C10 witness: the freshly constructed backend. -/
theorem getScreenSize_fallback_logged_once_witness :
    (EglXcbPlatform.new 100 [] []).screenSize.isOrigin = true ∧
    ((EglXcbPlatform.new 100 [] []).getScreenSize.1 = ⟨320, 240⟩ ∧
     (EglXcbPlatform.new 100 [] []).getScreenSize.2.trace =
       (EglXcbPlatform.new 100 [] []).trace ++
         [.log "EGL: screen size not set, falling back to 640x480"] ∧
     ∀ n : Nat,
       ((fun st : EglXcbPlatform => st.getScreenSize.2)^[n]
           (EglXcbPlatform.new 100 [] []).getScreenSize.2).getScreenSize =
         (⟨320, 240⟩, (EglXcbPlatform.new 100 [] []).getScreenSize.2)) :=
  ⟨by decide, getScreenSize_fallback_logged_once (EglXcbPlatform.new 100 [] []) (by decide)⟩

end ScreenSize


/-! ### The GPU context (C11, C12, C17, C18, C19) -/

section GpuContext

open NativeContext

/-- C18: `makeActive()` returns false and makes no call (the state, with its
record of calls, is unchanged) whenever the stored context is `EGL_NO_CONTEXT`
or the stored surface is `EGL_NO_SURFACE`; otherwise it calls `eglMakeCurrent`
once, with the stored surface and context, and returns exactly its answer;
`isActive()` is true if and only if the stored context is not `EGL_NO_CONTEXT`
and equals the context current on the calling thread. -/
theorem makeActive_needs_context_and_surface (nc : NativeContext) (madeCurrent : Bool) :
    ((nc.context = none ∨ nc.surface = none) → nc.makeActive madeCurrent = (false, nc)) ∧
    ((nc.context ≠ none ∧ nc.surface ≠ none) →
      (nc.makeActive madeCurrent).1 = madeCurrent ∧
      (nc.makeActive madeCurrent).2.trace =
        nc.trace ++ [.eglMakeCurrent nc.surface nc.surface nc.context]) ∧
    (nc.isActive = true ↔ (nc.context ≠ none ∧ nc.currentContext = nc.context)) := by
  refine ⟨?_, ?_, ?_⟩
  · intro h
    unfold makeActive
    rcases h with h | h
    · rw [if_pos h]
    · by_cases hc : nc.context = none
      · rw [if_pos hc]
      · rw [if_neg hc, if_pos h]
  · rintro ⟨hc, hs⟩
    unfold makeActive
    rw [if_neg hc, if_neg hs]
    cases madeCurrent <;> simp [emit]
  · simp [isActive, and_comm]

/-- C18 witness: a context without a surface, and the ready context. -/
theorem makeActive_needs_context_and_surface_witness :
    (({ Scenario.readyContext with surface := none } : NativeContext).context = none ∨
      ({ Scenario.readyContext with surface := none } : NativeContext).surface = none) ∧
    ({ Scenario.readyContext with surface := none } : NativeContext).makeActive true =
      (false, { Scenario.readyContext with surface := none }) ∧
    (Scenario.readyContext.context ≠ none ∧ Scenario.readyContext.surface ≠ none) ∧
    (Scenario.readyContext.makeActive false).1 = false ∧
    (Scenario.readyContext.makeActive false).2.trace =
      Scenario.readyContext.trace ++ [.eglMakeCurrent (some 5) (some 5) (some 9)] :=
  ⟨by decide,
   (makeActive_needs_context_and_surface { Scenario.readyContext with surface := none }
      true).1 (by decide),
   by decide,
   ((makeActive_needs_context_and_surface Scenario.readyContext false).2.1 (by decide)).1,
   ((makeActive_needs_context_and_surface Scenario.readyContext false).2.1 (by decide)).2⟩

/-- C11: for a native context that holds a context and a surface, when
`eglMakeCurrent` succeeds (and so makes the given context current on the calling
thread), two successive `makeActive()` calls both return true and `isActive()`
is true after each of them. -/
theorem makeActive_twice_succeeds (nc : NativeContext)
    (hcontext : nc.context ≠ none) (hsurface : nc.surface ≠ none) :
    (nc.makeActive true).1 = true ∧
    (nc.makeActive true).2.isActive = true ∧
    ((nc.makeActive true).2.makeActive true).1 = true ∧
    ((nc.makeActive true).2.makeActive true).2.isActive = true := by
  have h1 : nc.makeActive true =
      (true, { nc.emit (.eglMakeCurrent nc.surface nc.surface nc.context) with
                currentContext := nc.context }) := by
    unfold makeActive
    rw [if_neg hcontext, if_neg hsurface]
    rfl
  rw [h1]
  simp [makeActive, isActive, emit, hcontext, hsurface]

/-- C11 witness: the ready context. -/
theorem makeActive_twice_succeeds_witness :
    Scenario.readyContext.context ≠ none ∧ Scenario.readyContext.surface ≠ none ∧
    ((Scenario.readyContext.makeActive true).1 = true ∧
     (Scenario.readyContext.makeActive true).2.isActive = true ∧
     ((Scenario.readyContext.makeActive true).2.makeActive true).1 = true ∧
     ((Scenario.readyContext.makeActive true).2.makeActive true).2.isActive = true) :=
  ⟨by decide, by decide,
   makeActive_twice_succeeds Scenario.readyContext (by decide) (by decide)⟩

/-- C12: `setSwapInterval (n)` returns true and leaves the object and the record
of calls as they were when `n` equals the stored interval; otherwise it calls
`eglSwapInterval (n)` once, and on failure returns false with
`getSwapInterval()` unchanged, while on success it returns true with
`getSwapInterval() == n`. -/
theorem setSwapInterval_contract (nc : NativeContext) (n : Int) (accepted : Bool) :
    (n = nc.getSwapInterval → nc.setSwapInterval n accepted = (true, nc)) ∧
    (n ≠ nc.getSwapInterval →
      (nc.setSwapInterval n accepted).2.trace = nc.trace ++ [.eglSwapInterval n] ∧
      (accepted = false →
        (nc.setSwapInterval n accepted).1 = false ∧
        (nc.setSwapInterval n accepted).2.getSwapInterval = nc.getSwapInterval) ∧
      (accepted = true →
        (nc.setSwapInterval n accepted).1 = true ∧
        (nc.setSwapInterval n accepted).2.getSwapInterval = n)) := by
  constructor
  · intro h
    have h2 : n = nc.swapFrames := h
    unfold setSwapInterval
    rw [if_pos h2]
  · intro h
    have h2 : ¬ n = nc.swapFrames := h
    unfold setSwapInterval
    rw [if_neg h2]
    cases accepted <;> simp [emit, getSwapInterval]

/-- C12 witness: the ready context has interval `0`; `0` is asked, then `1`. -/
theorem setSwapInterval_contract_witness :
    (0 : Int) = Scenario.readyContext.getSwapInterval ∧
    Scenario.readyContext.setSwapInterval 0 false = (true, Scenario.readyContext) ∧
    (1 : Int) ≠ Scenario.readyContext.getSwapInterval ∧
    (Scenario.readyContext.setSwapInterval 1 false).1 = false ∧
    (Scenario.readyContext.setSwapInterval 1 false).2.getSwapInterval = 0 ∧
    (Scenario.readyContext.setSwapInterval 1 true).1 = true ∧
    (Scenario.readyContext.setSwapInterval 1 true).2.getSwapInterval = 1 :=
  ⟨by decide,
   (setSwapInterval_contract Scenario.readyContext 0 false).1 (by decide),
   by decide,
   (((setSwapInterval_contract Scenario.readyContext 1 false).2 (by decide)).2.1 rfl).1,
   (((setSwapInterval_contract Scenario.readyContext 1 false).2 (by decide)).2.1 rfl).2,
   (((setSwapInterval_contract Scenario.readyContext 1 true).2 (by decide)).2.2 rfl).1,
   (((setSwapInterval_contract Scenario.readyContext 1 true).2 (by decide)).2.2 rfl).2⟩

end GpuContext


/-! ### Construction and shut-down of the GPU context (C17, C19) -/

section GpuContextLifecycle

open NativeContext

/-- C17: the constructor (which always returns) calls `eglCreateWindowSurface`
if and only if `eglChooseConfig` succeeds and reports exactly one configuration;
when it fails or reports another number, exactly one line is written to the log
and the surface and the context stay `EGL_NO_SURFACE` and `EGL_NO_CONTEXT`. -/
theorem constructor_requires_one_config (componentBounds : Rectangle)
    (pixelFormat : OpenGLPixelFormat) (shareContext : Option Nat) (nativeWindow : Nat)
    (currentContext : Option Nat) (egl : EglAnswers) :
    (((NativeContext.new componentBounds pixelFormat shareContext nativeWindow
          currentContext egl).trace.any Effect.isSurfaceAttempt = true) ↔
      (egl.chooseConfigOk = true ∧ egl.numConfigs = 1)) ∧
    (¬ (egl.chooseConfigOk = true ∧ egl.numConfigs = 1) →
      ((NativeContext.new componentBounds pixelFormat shareContext nativeWindow
          currentContext egl).trace.filter Effect.isLog).length = 1 ∧
      (NativeContext.new componentBounds pixelFormat shareContext nativeWindow
          currentContext egl).surface = none ∧
      (NativeContext.new componentBounds pixelFormat shareContext nativeWindow
          currentContext egl).context = none) := by
  unfold NativeContext.new
  cases hok : egl.chooseConfigOk
  · simp [emit, Effect.isLog, Effect.isSurfaceAttempt]
  · by_cases hn : egl.numConfigs = 1
    · cases hs : egl.windowSurface <;>
        simp [hn, hs, emit, Effect.isLog, Effect.isSurfaceAttempt]
    · simp [hn, emit, Effect.isLog, Effect.isSurfaceAttempt]

/-- C17 witness: EGL reports no matching configuration. -/
theorem constructor_requires_one_config_witness :
    ¬ (Scenario.eglNoConfig.chooseConfigOk = true ∧ Scenario.eglNoConfig.numConfigs = 1) ∧
    ((NativeContext.new ⟨0, 0, 320, 240⟩ Scenario.pixelFormat none 101 none
        Scenario.eglNoConfig).trace.filter Effect.isLog).length = 1 ∧
    (NativeContext.new ⟨0, 0, 320, 240⟩ Scenario.pixelFormat none 101 none
        Scenario.eglNoConfig).surface = none ∧
    (NativeContext.new ⟨0, 0, 320, 240⟩ Scenario.pixelFormat none 101 none
        Scenario.eglNoConfig).context = none :=
  ⟨by decide,
   (constructor_requires_one_config ⟨0, 0, 320, 240⟩ Scenario.pixelFormat none 101 none
      Scenario.eglNoConfig).2 (by decide)⟩

/-- C19: `shutdownOnRenderThread()` first asks EGL to release the current context
(`eglMakeCurrent` with no surface and no context) and only then calls
`eglDestroyContext` on the stored context; a failure of either call adds a log
line and nothing else. Whatever the two answers, the stored context is
`EGL_NO_CONTEXT` afterwards, so that `makeActive()` returns false (for any
answer EGL would give) and `isActive()` returns false. -/
theorem shutdown_deactivates_then_destroys (nc : NativeContext) (released destroyed : Bool) :
    (nc.shutdownOnRenderThread released destroyed).trace =
      nc.trace ++ [.eglMakeCurrent none none none] ++
        (if released then [] else [.log "EGL: could not deactivate context"]) ++
        [.eglDestroyContext nc.context] ++
        (if destroyed then [] else [.log "EGL: Context not destroyed"]) ∧
    (released = true →
      (nc.deactivateCurrentContext released).currentContext = none) ∧
    (nc.shutdownOnRenderThread released destroyed).context = none ∧
    (∀ madeCurrent,
      ((nc.shutdownOnRenderThread released destroyed).makeActive madeCurrent).1 = false) ∧
    (nc.shutdownOnRenderThread released destroyed).isActive = false := by
  cases released <;> cases destroyed <;>
    simp [shutdownOnRenderThread, deactivateCurrentContext, makeActive, isActive, emit]

/-- C19 witness: the ready context, made active, is shut down while EGL refuses
to destroy the context. -/
theorem shutdown_deactivates_then_destroys_witness :
    ((Scenario.readyContext.makeActive true).2.shutdownOnRenderThread true false).trace =
      [.eglMakeCurrent (some 5) (some 5) (some 9), .eglMakeCurrent none none none,
       .eglDestroyContext (some 9), .log "EGL: Context not destroyed"] ∧
    ((Scenario.readyContext.makeActive true).2.shutdownOnRenderThread true false).context
      = none ∧
    ((Scenario.readyContext.makeActive true).2.shutdownOnRenderThread true
      false).isActive = false := by
  have h := shutdown_deactivates_then_destroys (Scenario.readyContext.makeActive true).2
    true false
  exact ⟨h.1.trans (by decide), h.2.2.1, h.2.2.2.2⟩

end GpuContextLifecycle


/-! ### Fatal initialisation failures (C20) -/

section Initialisation

open EglXcbPlatform

theorem initialisePlatform_none_iff (env : NativeEnv) (s : EglXcbPlatform) :
    s.initialisePlatform env = none ↔ env.xOpenDisplay = none := by
  unfold initialisePlatform
  cases hd : env.xOpenDisplay <;> simp [xcb_generate_id, emit]

theorem initialisePlatform_display (env : NativeEnv) (s s1 : EglXcbPlatform)
    (h : s.initialisePlatform env = some s1) :
    s1.display = env.xOpenDisplay ∧
    s1.trace = s.trace ++
      [.xSetEventQueueOwner (env.xOpenDisplay.getD 0), .xcbCreateWindow s.nextXid 1 1] := by
  unfold initialisePlatform at h
  cases hd : env.xOpenDisplay with
  | none => simp [hd] at h
  | some d =>
    simp only [hd, xcb_generate_id, emit, Option.some.injEq] at h
    subst h
    simp

/-- The run of `initialise` ends in `Process::terminate()` exactly when
`XOpenDisplay` returns null or `eglInitialize` fails on the display that
`eglGetDisplay` returned. -/
theorem initialise_none_iff (env : NativeEnv) (s : EglXcbPlatform) :
    s.initialise env = none ↔
      (env.xOpenDisplay = none ∨
        env.eglInitialize (env.eglGetDisplay env.xOpenDisplay) = false) := by
  unfold initialise
  cases hp : s.initialisePlatform env with
  | none =>
    have := (initialisePlatform_none_iff env s).1 hp
    simp [this]
  | some s1 =>
    have hx : env.xOpenDisplay ≠ none := fun h => by
      rw [(initialisePlatform_none_iff env s).2 h] at hp
      exact absurd hp (by simp)
    have hd := (initialisePlatform_display env s s1 hp).1
    simp only []
    split_ifs <;> simp_all [getNativeDisplay, emit]

/-- C20: with an EGL library that, as EGL requires, refuses to initialise
`EGL_NO_DISPLAY`, platform initialisation terminates the process exactly when
`XOpenDisplay` returns null, `eglGetDisplay` returns `EGL_NO_DISPLAY`, or
`eglInitialize` fails; in every other case it returns. In particular, when only
`eglBindAPI` fails, it returns and the failure has been written to the log. -/
theorem initialise_terminates_iff_no_display (env : NativeEnv) (s : EglXcbPlatform)
    (hegl : env.eglInitialize none = false) :
    (s.initialise env = none ↔
      (env.xOpenDisplay = none ∨ env.eglGetDisplay env.xOpenDisplay = none ∨
        env.eglInitialize (env.eglGetDisplay env.xOpenDisplay) = false)) ∧
    ((env.eglBindAPI = false ∧ env.xOpenDisplay ≠ none ∧
        env.eglGetDisplay env.xOpenDisplay ≠ none ∧
        env.eglInitialize (env.eglGetDisplay env.xOpenDisplay) = true) →
      ∃ s1, s.initialise env = some s1 ∧
        s1.trace = s.trace ++
          [.xSetEventQueueOwner (env.xOpenDisplay.getD 0), .xcbCreateWindow s.nextXid 1 1,
           .log "EGL: could not bind GL_ES API"]) := by
  constructor
  · rw [initialise_none_iff]
    constructor
    · rintro (h | h)
      · exact Or.inl h
      · exact Or.inr (Or.inr h)
    · rintro (h | h | h)
      · exact Or.inl h
      · exact Or.inr (by rw [h]; exact hegl)
      · exact Or.inr h
  · rintro ⟨hbind, hx, hg, hi⟩
    cases hp : s.initialisePlatform env with
    | none => exact absurd ((initialisePlatform_none_iff env s).1 hp) hx
    | some s1 =>
      obtain ⟨hd, ht⟩ := initialisePlatform_display env s s1 hp
      refine ⟨{ s1.emit (.log "EGL: could not bind GL_ES API") with
                eglDisplay := env.eglGetDisplay env.xOpenDisplay }, ?_, ?_⟩
      · unfold initialise
        simp [hp, hbind, getNativeDisplay, emit, hd, hi, hg]
      · simp [emit, ht]

/-- C20 witness: with `eglGetDisplay` answering `EGL_NO_DISPLAY` the process is
terminated; with everything succeeding except `eglBindAPI` it is not, and the
failure is in the log. -/
theorem initialise_terminates_iff_no_display_witness :
    Scenario.envNoEglDisplay.eglInitialize none = false ∧
    Scenario.envNoEglDisplay.eglGetDisplay Scenario.envNoEglDisplay.xOpenDisplay = none ∧
    (EglXcbPlatform.new 100 [] []).initialise Scenario.envNoEglDisplay = none ∧
    Scenario.envNoBind.eglInitialize none = false ∧
    (Scenario.envNoBind.eglBindAPI = false ∧ Scenario.envNoBind.xOpenDisplay ≠ none ∧
      Scenario.envNoBind.eglGetDisplay Scenario.envNoBind.xOpenDisplay ≠ none ∧
      Scenario.envNoBind.eglInitialize
        (Scenario.envNoBind.eglGetDisplay Scenario.envNoBind.xOpenDisplay) = true) ∧
    ∃ s1, (EglXcbPlatform.new 100 [] []).initialise Scenario.envNoBind = some s1 ∧
      s1.trace = (EglXcbPlatform.new 100 [] []).trace ++
        [.xSetEventQueueOwner (Scenario.envNoBind.xOpenDisplay.getD 0),
         .xcbCreateWindow (EglXcbPlatform.new 100 [] []).nextXid 1 1,
         .log "EGL: could not bind GL_ES API"] :=
  ⟨by decide, by decide,
   ((initialise_terminates_iff_no_display Scenario.envNoEglDisplay
      (EglXcbPlatform.new 100 [] []) (by decide)).1).2 (Or.inr (Or.inl (by decide))),
   by decide, by decide,
   (initialise_terminates_iff_no_display Scenario.envNoBind (EglXcbPlatform.new 100 [] [])
      (by decide)).2 (by decide)⟩

/-- Whatever the EGL library answers, platform initialisation terminates the
process exactly when `XOpenDisplay` returns null or `eglInitialize` fails (on
the display that `eglGetDisplay` returned), and returns otherwise. When it
returns, a failure to bind the GL ES API and an `EGL_NO_DISPLAY` answer of
`eglGetDisplay` have each been written to the log, and nothing else has. -/
theorem initialise_terminates_iff (env : NativeEnv) (s : EglXcbPlatform) :
    (s.initialise env = none ↔
      (env.xOpenDisplay = none ∨
        env.eglInitialize (env.eglGetDisplay env.xOpenDisplay) = false)) ∧
    (∀ s1, s.initialise env = some s1 →
      s1.trace = s.trace ++
        [.xSetEventQueueOwner (env.xOpenDisplay.getD 0), .xcbCreateWindow s.nextXid 1 1] ++
        (if env.eglBindAPI then [] else [.log "EGL: could not bind GL_ES API"]) ++
        (if env.eglGetDisplay env.xOpenDisplay = none
          then [.log "EGL: could not open egl display"] else [])) := by
  refine ⟨initialise_none_iff env s, ?_⟩
  intro s1 h
  unfold initialise at h
  cases hp : s.initialisePlatform env with
  | none => simp [hp] at h
  | some s2 =>
    obtain ⟨hd, ht⟩ := initialisePlatform_display env s s2 hp
    simp only [hp] at h
    split_ifs at h <;>
      (simp only [Option.some.injEq] at h
       subst h
       simp_all [emit, getNativeDisplay])

/-- The previous theorem where everything succeeds except `eglBindAPI`. -/
theorem initialise_terminates_iff_witness :
    (EglXcbPlatform.new 100 [] []).initialise Scenario.envNoBind =
      some { EglXcbPlatform.new 101 [] [] with
        display := some 7, connection := some 7, eglDisplay := some 7, eventWindow := 100,
        trace := [.xSetEventQueueOwner 7, .xcbCreateWindow 100 1 1,
                  .log "EGL: could not bind GL_ES API"] } ∧
    ({ EglXcbPlatform.new 101 [] [] with
        display := some 7, connection := some 7, eglDisplay := some 7, eventWindow := 100,
        trace := [.xSetEventQueueOwner 7, .xcbCreateWindow 100 1 1,
                  .log "EGL: could not bind GL_ES API"] } : EglXcbPlatform).trace =
      (EglXcbPlatform.new 100 [] []).trace ++
        [.xSetEventQueueOwner (Scenario.envNoBind.xOpenDisplay.getD 0),
         .xcbCreateWindow (EglXcbPlatform.new 100 [] []).nextXid 1 1] ++
        (if Scenario.envNoBind.eglBindAPI then [] else [.log "EGL: could not bind GL_ES API"]) ++
        (if Scenario.envNoBind.eglGetDisplay Scenario.envNoBind.xOpenDisplay = none
          then [.log "EGL: could not open egl display"] else []) :=
  ⟨by decide,
   (initialise_terminates_iff Scenario.envNoBind (EglXcbPlatform.new 100 [] [])).2 _
     (by decide)⟩

end Initialisation

/-! ### Button codes (C16) -/

section ButtonCodes

open EglXcbPlatform

/-- C16 (counterexample): wheel-up and wheel-down are among the six codes that
`XcbKeys::MouseButtons` declares, and `translateMouseButton` reaches
`jassertfalse` for both of them. -/
theorem translateMouseButton_asserts_on_wheel :
    XcbKeys.WheelUp = 4 ∧ XcbKeys.WheelDown = 5 ∧
    (translateMouseButton ModifierKeys.juceFlags XcbKeys.WheelUp).2 = true ∧
    (translateMouseButton ModifierKeys.juceFlags XcbKeys.WheelDown).2 = true := by
  decide

/-- C16 (amended): `translateMouseButton` reaches `jassertfalse` if and only if
the code is none of none, left, middle and right; for these four it returns the
flag (no flag, left, middle, right) without failure, and for every other code,
wheel-up and wheel-down included, it returns no flag. -/
theorem translateMouseButton_asserts_iff (K : ModifierFlags) (button : Nat) :
    ((translateMouseButton K button).2 = true ↔
      (button ≠ XcbKeys.NoButton ∧ button ≠ XcbKeys.LeftButton ∧
       button ≠ XcbKeys.MiddleButton ∧ button ≠ XcbKeys.RightButton)) ∧
    translateMouseButton K XcbKeys.NoButton = (ModifierKeys.noModifiers, false) ∧
    translateMouseButton K XcbKeys.LeftButton = (K.leftButtonModifier, false) ∧
    translateMouseButton K XcbKeys.MiddleButton = (K.middleButtonModifier, false) ∧
    translateMouseButton K XcbKeys.RightButton = (K.rightButtonModifier, false) ∧
    ((translateMouseButton K button).2 = true →
      (translateMouseButton K button).1 = ModifierKeys.noModifiers) := by
  refine ⟨?_, by simp [translateMouseButton, XcbKeys.NoButton],
    by simp [translateMouseButton, XcbKeys.NoButton, XcbKeys.LeftButton, XcbKeys.RightButton],
    by simp [translateMouseButton, XcbKeys.NoButton, XcbKeys.LeftButton, XcbKeys.RightButton,
      XcbKeys.MiddleButton],
    by simp [translateMouseButton, XcbKeys.NoButton, XcbKeys.RightButton], ?_⟩
  · unfold translateMouseButton
    split_ifs <;> simp_all
  · unfold translateMouseButton
    split_ifs <;> simp_all

end ButtonCodes


/-! ### The event pump (C13, C14, C15) -/

section EventPump

open EglXcbPlatform

theorem handleButtonPress_resume (K : ModifierFlags) (getPeer : Nat → Option Nat)
    (r : EglXcbPlatform) (p : Point) (btn st time : Nat)
    (q : List xcb_generic_event_t) (t : List Effect) :
    handleButtonPress K getPeer (resume q t r) p btn st time =
      (handleButtonPress K getPeer r p btn st time).map (resume q t) := by
  unfold handleButtonPress
  split_ifs with hb
  · cases hf : (translateMouseButton K btn) with
    | mk flag failed =>
      cases failed <;> simp only [] <;>
      · cases hc : r.context with
        | none => simp [targetPeer, hc, emit, resume]
        | some ctx =>
          cases ht : ctx.target with
          | none => simp [targetPeer, hc, ht, emit, resume]
          | some comp =>
            cases hg : getPeer comp <;> simp [targetPeer, hc, ht, hg, emit, resume]
  · simp

theorem handleButtonRelease_resume (K : ModifierFlags) (getPeer : Nat → Option Nat)
    (r : EglXcbPlatform) (p : Point) (btn st time : Nat)
    (q : List xcb_generic_event_t) (t : List Effect) :
    handleButtonRelease K getPeer (resume q t r) p btn st time =
      (handleButtonRelease K getPeer r p btn st time).map (resume q t) := by
  unfold handleButtonRelease
  split_ifs with hb
  · cases hf : (translateMouseButton K btn) with
    | mk flag failed =>
      cases failed <;> simp only [] <;>
      · cases hc : r.context with
        | none => simp [targetPeer, hc, emit, resume]
        | some ctx =>
          cases ht : ctx.target with
          | none => simp [targetPeer, hc, ht, emit, resume]
          | some comp =>
            cases hg : getPeer comp <;> simp [targetPeer, hc, ht, hg, emit, resume]
  · simp

theorem motionNotifyCase_resume (getPeer : Nat → Option Nat)
    (r : EglXcbPlatform) (ev : xcb_generic_event_t)
    (q : List xcb_generic_event_t) (t : List Effect) :
    motionNotifyCase getPeer (resume q t r) ev =
      (motionNotifyCase getPeer r ev).map (resume q t) := by
  unfold motionNotifyCase handleMotionNotify
  cases hc : r.context with
  | none => simp [targetPeer, hc, emit, resume]
  | some ctx =>
    cases ht : ctx.target with
    | none => simp [targetPeer, hc, ht, emit, resume]
    | some comp =>
      cases hg : getPeer comp <;> simp [targetPeer, hc, ht, hg, emit, resume]

theorem clientMessageCase_resume (r : EglXcbPlatform) (ev : xcb_generic_event_t)
    (q : List xcb_generic_event_t) (t : List Effect) :
    clientMessageCase (resume q t r) ev = resume q t (clientMessageCase r ev) := by
  unfold clientMessageCase
  split_ifs <;> simp_all [resume, emit, atom]

/-- What `handleGenericEvent` does depends neither on the events still queued
nor on the calls recorded before: on a state resumed with another queue and
earlier calls it yields the same state, resumed in the same way. -/
theorem handleGenericEvent_resume (K : ModifierFlags) (getPeer : Nat → Option Nat)
    (r : EglXcbPlatform) (ev : xcb_generic_event_t)
    (q : List xcb_generic_event_t) (t : List Effect) :
    handleGenericEvent K getPeer (resume q t r) ev =
      (handleGenericEvent K getPeer r ev).map (resume q t) := by
  unfold handleGenericEvent
  simp only []
  split_ifs
  · exact handleButtonPress_resume K getPeer r _ _ _ _ q t
  · rw [handleButtonRelease_resume]
    cases handleButtonRelease K getPeer r ⟨xcb.event_x ev, xcb.event_y ev⟩
        (xcb.detail ev) (xcb.state ev) (xcb.time ev) with
    | none => rfl
    | some s1 => exact motionNotifyCase_resume getPeer s1 ev q t
  · exact motionNotifyCase_resume getPeer r ev q t
  · simp [clientMessageCase_resume]
  · simp [clientMessageCase_resume]
  · simp [emit, resume]

theorem handleButtonPress_shape (K : ModifierFlags) (getPeer : Nat → Option Nat)
    (s s1 : EglXcbPlatform) (p : Point) (btn st time : Nat)
    (h : handleButtonPress K getPeer s p btn st time = some s1) :
    ∃ m es, s1 = { s with currentModifiers := m, trace := s.trace ++ es } := by
  unfold handleButtonPress at h
  split_ifs at h with hb
  · cases hf : (translateMouseButton K btn) with
    | mk flag failed =>
      rw [hf] at h
      cases failed <;> simp only [] at h <;>
      · split at h
        · exact absurd h (by simp)
        · simp only [Option.some.injEq] at h
          subst h
          exact ⟨_, _, by simp [emit]; exact ⟨rfl, rfl⟩⟩
  · simp only [Option.some.injEq] at h
    subst h
    exact ⟨s.currentModifiers, [], by simp⟩

theorem handleButtonRelease_shape (K : ModifierFlags) (getPeer : Nat → Option Nat)
    (s s1 : EglXcbPlatform) (p : Point) (btn st time : Nat)
    (h : handleButtonRelease K getPeer s p btn st time = some s1) :
    ∃ m es, s1 = { s with currentModifiers := m, trace := s.trace ++ es } := by
  unfold handleButtonRelease at h
  split_ifs at h with hb
  · cases hf : (translateMouseButton K btn) with
    | mk flag failed =>
      rw [hf] at h
      cases failed <;> simp only [] at h <;>
      · split at h
        · exact absurd h (by simp)
        · simp only [Option.some.injEq] at h
          subst h
          exact ⟨_, _, by simp [emit]; exact ⟨rfl, rfl⟩⟩
  · simp only [Option.some.injEq] at h
    subst h
    exact ⟨s.currentModifiers, [], by simp⟩

theorem motionNotifyCase_shape (getPeer : Nat → Option Nat)
    (s s1 : EglXcbPlatform) (ev : xcb_generic_event_t)
    (h : motionNotifyCase getPeer s ev = some s1) :
    ∃ m es, s1 = { s with currentModifiers := m, trace := s.trace ++ es } := by
  unfold motionNotifyCase handleMotionNotify at h
  split at h
  · exact absurd h (by simp)
  · simp only [Option.some.injEq] at h
    subst h
    exact ⟨s.currentModifiers, _, by simp [emit]; rfl⟩

/-- Whenever `handleGenericEvent` returns, the state it returns differs from the
one it was given at most in the modifier state and in calls added to the
record. -/
theorem handleGenericEvent_shape (K : ModifierFlags) (getPeer : Nat → Option Nat)
    (s s1 : EglXcbPlatform) (ev : xcb_generic_event_t)
    (h : handleGenericEvent K getPeer s ev = some s1) :
    ∃ m es, s1 = { s with currentModifiers := m, trace := s.trace ++ es } := by
  unfold handleGenericEvent at h
  simp only [] at h
  split_ifs at h
  · exact handleButtonPress_shape K getPeer s s1 _ _ _ _ h
  · split at h
    · exact absurd h (by simp)
    · rename_i s2 h2
      obtain ⟨m2, es2, e2⟩ := handleButtonRelease_shape K getPeer s s2 _ _ _ _ h2
      obtain ⟨m3, es3, e3⟩ := motionNotifyCase_shape getPeer s2 s1 ev h
      exact ⟨m3, es2 ++ es3, by rw [e3, e2]; simp⟩
  · exact motionNotifyCase_shape getPeer s s1 ev h
  · simp only [Option.some.injEq] at h
    subst h
    unfold clientMessageCase
    split_ifs
    · exact ⟨s.currentModifiers, [.quit], by simp [emit]⟩
    · exact ⟨s.currentModifiers, [], by simp⟩
  · simp only [Option.some.injEq] at h
    subst h
    unfold clientMessageCase
    split_ifs
    · exact ⟨s.currentModifiers, [.quit], by simp [emit]⟩
    · exact ⟨s.currentModifiers, [], by simp⟩
  · simp only [Option.some.injEq] at h
    subst h
    exact ⟨s.currentModifiers, _, by simp [emit]; rfl⟩

/-- When the GPU context is attached to a component that has a peer,
`handleGenericEvent` returns for every event. -/
theorem handleGenericEvent_returns (K : ModifierFlags) (getPeer : Nat → Option Nat)
    (s : EglXcbPlatform) (ev : xcb_generic_event_t) (peer : Nat)
    (hpeer : targetPeer getPeer s = some peer) :
    ∃ s1, handleGenericEvent K getPeer s ev = some s1 := by
  have hmods : ∀ (m : Nat) (es : List Effect),
      targetPeer getPeer { s with currentModifiers := m, trace := s.trace ++ es } =
        some peer := fun m es => hpeer
  have hpress : ∀ p btn st time, ∃ s1, handleButtonPress K getPeer s p btn st time = some s1 := by
    intro p btn st time
    unfold handleButtonPress
    split_ifs
    · cases hf : (translateMouseButton K btn) with
      | mk flag failed =>
        cases failed <;> simp only [] <;>
        · have := hmods
          simp_all [targetPeer, emit]
    · exact ⟨s, rfl⟩
  have hrel : ∀ p btn st time, ∃ s1, handleButtonRelease K getPeer s p btn st time = some s1 := by
    intro p btn st time
    unfold handleButtonRelease
    split_ifs
    · cases hf : (translateMouseButton K btn) with
      | mk flag failed =>
        cases failed <;> simp only [] <;>
        · have := hmods
          simp_all [targetPeer, emit]
    · exact ⟨s, rfl⟩
  have hmotion : ∀ s2 : EglXcbPlatform, s2.context = s.context →
      ∃ s1, motionNotifyCase getPeer s2 ev = some s1 := by
    intro s2 hc
    have h2 : targetPeer getPeer s2 = some peer := by
      unfold targetPeer at hpeer ⊢
      rw [hc]
      exact hpeer
    unfold motionNotifyCase handleMotionNotify
    rw [h2]
    exact ⟨_, rfl⟩
  unfold handleGenericEvent
  simp only []
  split_ifs
  · exact hpress _ _ _ _
  · obtain ⟨s2, h2⟩ := hrel ⟨xcb.event_x ev, xcb.event_y ev⟩ (xcb.detail ev) (xcb.state ev)
      (xcb.time ev)
    rw [h2]
    obtain ⟨m, es, e⟩ := handleButtonRelease_shape K getPeer s s2 _ _ _ _ h2
    exact hmotion s2 (by rw [e])
  · exact hmotion s rfl
  · exact ⟨_, rfl⟩
  · exact ⟨_, rfl⟩
  · exact ⟨_, rfl⟩

theorem getNextEvent_of_queued (K : ModifierFlags) (getPeer : Nat → Option Nat)
    (s : EglXcbPlatform) (ev : xcb_generic_event_t) (rest : List xcb_generic_event_t)
    (hopen : s.connection ≠ none) (hqueue : s.eventQueue = ev :: rest) :
    getNextEvent K getPeer s =
      (handleGenericEvent K getPeer { s with eventQueue := rest } ev).map
        (fun r => (true, r)) := by
  obtain ⟨c, hc⟩ := Option.ne_none_iff_exists'.1 hopen
  unfold getNextEvent xcb_poll_for_event
  have hs : s = { s with connection := some c, eventQueue := ev :: rest } := by
    rw [← hc, ← hqueue]
  rw [hs]
  simp only []
  generalize handleGenericEvent K getPeer _ ev = o
  cases o <;> rfl

/-- When the connection is not open, `getNextEvent()` returns false and leaves
the platform, its queue and its record of calls as they were. When the
connection is open and nothing is queued it returns true and changes nothing.
When the connection is open and events are queued, it takes the oldest one off
the queue and hands exactly that event to `handleGenericEvent`; if that call
returns, `getNextEvent()` returns true with the state it left, in which the
other events are still queued; and the call does return whenever the GPU
context is attached to a component that has a peer. -/
theorem getNextEvent_polls_one_event (K : ModifierFlags) (getPeer : Nat → Option Nat)
    (s : EglXcbPlatform) :
    (s.connection = none → getNextEvent K getPeer s = some (false, s)) ∧
    (s.connection ≠ none → s.eventQueue = [] → getNextEvent K getPeer s = some (true, s)) ∧
    (∀ ev rest, s.connection ≠ none → s.eventQueue = ev :: rest →
      getNextEvent K getPeer s =
        (handleGenericEvent K getPeer { s with eventQueue := rest } ev).map
          (fun r => (true, r)) ∧
      (∀ r, handleGenericEvent K getPeer { s with eventQueue := rest } ev = some r →
        r.eventQueue = rest) ∧
      (∀ peer, targetPeer getPeer s = some peer →
        ∃ r, getNextEvent K getPeer s = some (true, r) ∧ r.eventQueue = rest)) := by
  refine ⟨?_, ?_, ?_⟩
  · intro h
    unfold getNextEvent
    rw [h]
  · intro hopen hq
    obtain ⟨c, hc⟩ := Option.ne_none_iff_exists'.1 hopen
    unfold getNextEvent xcb_poll_for_event
    rw [hc, hq]
  · intro ev rest hopen hq
    have hrest : ∀ r, handleGenericEvent K getPeer { s with eventQueue := rest } ev = some r →
        r.eventQueue = rest := by
      intro r hr
      obtain ⟨m, es, e⟩ := handleGenericEvent_shape K getPeer _ r ev hr
      rw [e]
    refine ⟨getNextEvent_of_queued K getPeer s ev rest hopen hq, hrest, ?_⟩
    intro peer hpeer
    obtain ⟨r, hr⟩ := handleGenericEvent_returns K getPeer { s with eventQueue := rest } ev
      peer hpeer
    exact ⟨r, by rw [getNextEvent_of_queued K getPeer s ev rest hopen hq, hr]; rfl,
      hrest r hr⟩

/-- The previous theorem where a press and a motion are queued: the press is
dispatched and the motion stays queued. -/
theorem getNextEvent_polls_one_event_witness :
    Scenario.twoQueued.connection ≠ none ∧
    Scenario.twoQueued.eventQueue = [Scenario.leftButtonEvent 4, Scenario.motionEvent] ∧
    targetPeer Scenario.getPeer Scenario.twoQueued = some 1 ∧
    ∃ r, getNextEvent ModifierKeys.juceFlags Scenario.getPeer Scenario.twoQueued =
        some (true, r) ∧ r.eventQueue = [Scenario.motionEvent] :=
  ⟨by decide, by decide, by decide,
   ((getNextEvent_polls_one_event ModifierKeys.juceFlags Scenario.getPeer
      Scenario.twoQueued).2.2 (Scenario.leftButtonEvent 4) [Scenario.motionEvent]
      (by decide) (by decide)).2.2 1 (by decide)⟩

/-- C13 (code evaluated at the failing input): the only peer has been added and
removed again, so the connection is open (`7`) while `pimpl->context` is null,
and a motion event is queued. `getNextEvent()` polls the event and
`handleMotionNotify` dereferences the null context: the call does not return,
where the claim has it return true. -/
theorem getNextEvent_without_context_does_not_return :
    runPeerOps Scenario.startedState Scenario.addThenRemove =
      some Scenario.afterAddThenRemove ∧
    Scenario.motionAfterRemoval.connection = some 7 ∧
    Scenario.motionAfterRemoval.peers = [] ∧
    Scenario.motionAfterRemoval.context = none ∧
    Scenario.motionAfterRemoval.eventQueue = [Scenario.motionEvent] ∧
    xcb.response_type Scenario.motionEvent &&& ModifierKeys.complement32 0x80 =
      xcb.XCB_MOTION_NOTIFY ∧
    getNextEvent ModifierKeys.juceFlags Scenario.getPeer Scenario.motionAfterRemoval = none ∧
    processEvents ModifierKeys.juceFlags Scenario.getPeer Scenario.motionAfterRemoval =
      none := by
  decide

/-- C15: for every event whose kind (the response type without the bit `0x80`) is
none of button press, button release, motion, expose and client message,
`handleGenericEvent` returns the state it was given with one debug line added
to the record of calls: the modifier state and every other field are unchanged,
no call reaches a peer and no quit is raised. Any later event is then handled as
it would have been before: from the state before and from the state after the
unknown event, `handleGenericEvent` yields what it yields on the state with an
empty record, placed after the respective record. -/
theorem unknown_event_changes_nothing (K : ModifierFlags) (getPeer : Nat → Option Nat)
    (s : EglXcbPlatform) (ev later : xcb_generic_event_t)
    (hkind : xcb.response_type ev &&& ModifierKeys.complement32 0x80 ≠ xcb.XCB_BUTTON_PRESS ∧
      xcb.response_type ev &&& ModifierKeys.complement32 0x80 ≠ xcb.XCB_BUTTON_RELEASE ∧
      xcb.response_type ev &&& ModifierKeys.complement32 0x80 ≠ xcb.XCB_MOTION_NOTIFY ∧
      xcb.response_type ev &&& ModifierKeys.complement32 0x80 ≠ xcb.XCB_EXPOSE ∧
      xcb.response_type ev &&& ModifierKeys.complement32 0x80 ≠ xcb.XCB_CLIENT_MESSAGE) :
    handleGenericEvent K getPeer s ev =
      some { s with trace := s.trace ++
        [.dbg ("EGL: unhandled xcb event: " ++
          toString (xcb.response_type ev &&& ModifierKeys.complement32 0x80))] } ∧
    handleGenericEvent K getPeer s later =
      (handleGenericEvent K getPeer { s with trace := [] } later).map
        (fun r => { r with trace := s.trace ++ r.trace }) ∧
    handleGenericEvent K getPeer
        { s with trace := s.trace ++
          [.dbg ("EGL: unhandled xcb event: " ++
            toString (xcb.response_type ev &&& ModifierKeys.complement32 0x80))] } later =
      (handleGenericEvent K getPeer { s with trace := [] } later).map
        (fun r => { r with trace := (s.trace ++
          [.dbg ("EGL: unhandled xcb event: " ++
            toString (xcb.response_type ev &&& ModifierKeys.complement32 0x80))]) ++
          r.trace }) := by
  obtain ⟨h1, h2, h3, h4, h5⟩ := hkind
  have hframe : ∀ t : List Effect,
      handleGenericEvent K getPeer { s with trace := t } later =
        (handleGenericEvent K getPeer { s with trace := [] } later).map
          (fun r => { r with trace := t ++ r.trace }) := by
    intro t
    have h := handleGenericEvent_resume K getPeer { s with trace := [] } later s.eventQueue t
    have e1 : resume s.eventQueue t { s with trace := [] } = { s with trace := t } := by
      simp [resume]
    rw [e1] at h
    rw [h]
    cases hh : handleGenericEvent K getPeer { s with trace := [] } later with
    | none => rfl
    | some r =>
      obtain ⟨m, es, e⟩ := handleGenericEvent_shape K getPeer _ r later hh
      rw [e]
      simp [resume]
  refine ⟨?_, hframe s.trace, hframe _⟩
  unfold handleGenericEvent
  simp only [h1, h2, h3, h4, h5, if_false, emit]

/-- C15 witness: a key press (code `2`), which this backend does not handle,
followed by the close request. -/
theorem unknown_event_changes_nothing_witness :
    (xcb.response_type (Scenario.leftButtonEvent 2) &&& ModifierKeys.complement32 0x80 ≠
        xcb.XCB_BUTTON_PRESS ∧
      xcb.response_type (Scenario.leftButtonEvent 2) &&& ModifierKeys.complement32 0x80 ≠
        xcb.XCB_BUTTON_RELEASE ∧
      xcb.response_type (Scenario.leftButtonEvent 2) &&& ModifierKeys.complement32 0x80 ≠
        xcb.XCB_MOTION_NOTIFY ∧
      xcb.response_type (Scenario.leftButtonEvent 2) &&& ModifierKeys.complement32 0x80 ≠
        xcb.XCB_EXPOSE ∧
      xcb.response_type (Scenario.leftButtonEvent 2) &&& ModifierKeys.complement32 0x80 ≠
        xcb.XCB_CLIENT_MESSAGE) ∧
    handleGenericEvent ModifierKeys.juceFlags Scenario.getPeer Scenario.listening
        (Scenario.leftButtonEvent 2) =
      some { Scenario.listening with trace := [.dbg "EGL: unhandled xcb event: 2"] } := by
  have h := unknown_event_changes_nothing ModifierKeys.juceFlags Scenario.getPeer
    Scenario.listening (Scenario.leftButtonEvent 2) (Scenario.closeRequest 32) (by decide)
  exact ⟨by decide, h.1.trans (by decide)⟩

end EventPump


/-! ### Expose events (C21) -/

section Expose

open EglXcbPlatform

/-- For every expose event, `handleGenericEvent` returns, leaves the modifier
state and every other field but the record of calls as they were, and makes no
call on a peer: the state it returns is the one the client-message check
yields, that is the given state, with a quit added when the check matches. -/
theorem expose_runs_into_client_message (K : ModifierFlags) (getPeer : Nat → Option Nat)
    (s : EglXcbPlatform) (ev : xcb_generic_event_t)
    (hkind : xcb.response_type ev &&& ModifierKeys.complement32 0x80 = xcb.XCB_EXPOSE) :
    handleGenericEvent K getPeer s ev = some (clientMessageCase s ev) ∧
    (clientMessageCase s ev = s ∨
      clientMessageCase s ev = { s with trace := s.trace ++ [.quit] }) := by
  constructor
  · simp [handleGenericEvent, hkind, xcb.XCB_EXPOSE, xcb.XCB_BUTTON_PRESS,
      xcb.XCB_BUTTON_RELEASE, xcb.XCB_MOTION_NOTIFY]
  · unfold clientMessageCase
    split_ifs
    · exact Or.inr rfl
    · exact Or.inl rfl

/-- C21 (code evaluated at the failing input): an expose event whose padding byte
is `32` and whose `x`, `y`, `width`, `height` are `13`, `0`, `14`, `0`, while the
atoms `WM_PROTOCOLS` and `WM_DELETE_WINDOW` are `13` and `14`. The case for
expose has no `break`; the bytes of the event, read as a client message, pass
the close-request check, and the quit signal is raised. -/
theorem expose_event_raises_quit :
    xcb.response_type Scenario.exposeEvent &&& ModifierKeys.complement32 0x80 =
      xcb.XCB_EXPOSE ∧
    xcb.exposeBounds Scenario.exposeEvent = ⟨13, 0, 14, 0⟩ ∧
    Scenario.listening.atom XcbAtoms.wmProtocols = 13 ∧
    Scenario.listening.atom XcbAtoms.wmDeleteWindow = 14 ∧
    handleGenericEvent ModifierKeys.juceFlags Scenario.getPeer Scenario.listening
        Scenario.exposeEvent =
      some { Scenario.listening with trace := [.quit] } := by
  decide

end Expose

/-! ### One bit per touch (C22) -/

section TouchBits

open EglComponentPeer

theorem signExtend32_bit_below_31 :
    ∀ n, n < 31 → signExtend32 (2 ^ n) = 2 ^ n ∧
      signExtend32 (ModifierKeys.complement32 (2 ^ n)) = (2 ^ 64 - 1) ^^^ 2 ^ n := by
  decide

theorem handleMouseDragCallback_touchesDown (K : ModifierFlags) (t : ShiftTarget)
    (p : EglComponentPeer) (index : Int) (pos : PointF) (time : Int) :
    (handleMouseDragCallback K t p index pos time).touchesDown =
      p.touchesDown ||| signExtend32 (touchBit t index) := by
  unfold handleMouseDragCallback handleMouseEvent assertIndex emit
  simp only []
  split <;> rfl

theorem handleMouseUpCallback_touchesDown (K : ModifierFlags) (t : ShiftTarget)
    (p : EglComponentPeer) (index : Int) (pos : PointF) (time : Int) :
    (handleMouseUpCallback K t p index pos time).touchesDown =
      p.touchesDown &&& signExtend32 (ModifierKeys.complement32 (touchBit t index)) := by
  unfold handleMouseUpCallback handleMouseEvent assertIndex emit
  simp only []
  split <;> split <;> rfl

/-- For a touch index below 31 the drag sets exactly the bit of that index and
the mouse-up clears exactly that bit among the 64 bits of the mask. -/
theorem touch_below_31_one_bit (K : ModifierFlags) (t : ShiftTarget) (p : EglComponentPeer)
    (n : Nat) (hn : n < 31) (pos : PointF) (time : Int) (i : Nat) (hi : i < 64) :
    (handleMouseDragCallback K t p n pos time).touchesDown.testBit i =
      (p.touchesDown.testBit i || decide (i = n)) ∧
    (handleMouseUpCallback K t p n pos time).touchesDown.testBit i =
      (p.touchesDown.testBit i && !decide (i = n)) := by
  have hbit : touchBit t (n : Int) = 2 ^ n := by
    have h64 : ((n : Int) % 64).toNat = n := by omega
    have h32 : n < 32 := by omega
    simp [touchBit, shiftLeftOne, h64, h32]
  obtain ⟨h1, h2⟩ := signExtend32_bit_below_31 n hn
  rw [handleMouseDragCallback_touchesDown, handleMouseUpCallback_touchesDown, hbit, h1, h2]
  simp only [Nat.testBit_or, Nat.testBit_and, Nat.testBit_xor, Nat.testBit_two_pow_sub_one,
    Nat.testBit_two_pow]
  constructor
  · by_cases h : n = i <;> simp [h, eq_comm]
  · by_cases h : n = i <;> simp [h, hi, eq_comm]

/-- C22 (code evaluated at the failing input): touch index 31. From the empty
mask the drag sets the bits 31 to 63 (the `int` `1 << 31` is negative and is
sign-extended), so bit 32 changes; from the full mask the mouse-up clears the
bits 31 to 63, so bit 32 changes again. -/
theorem touch_31_changes_upper_bits (t : ShiftTarget) :
    Scenario.freshPeer.touchesDown = 0 ∧
    (handleMouseDragCallback ModifierKeys.juceFlags t Scenario.freshPeer 31
        ⟨0, ⟨5, 5⟩⟩ 0).touchesDown = 0xFFFFFFFF80000000 ∧
    (handleMouseDragCallback ModifierKeys.juceFlags t Scenario.freshPeer 31
        ⟨0, ⟨5, 5⟩⟩ 0).touchesDown.testBit 32 = true ∧
    (handleMouseUpCallback ModifierKeys.juceFlags t
        { Scenario.freshPeer with touchesDown := 0xFFFFFFFFFFFFFFFF } 31
        ⟨0, ⟨5, 5⟩⟩ 0).touchesDown = 0x7FFFFFFF ∧
    (handleMouseUpCallback ModifierKeys.juceFlags t
        { Scenario.freshPeer with touchesDown := 0xFFFFFFFFFFFFFFFF } 31
        ⟨0, ⟨5, 5⟩⟩ 0).touchesDown.testBit 32 = false := by
  cases t <;> decide

end TouchBits


/-! ### The modifier state seen by the query functions (C23) -/

section QueriedModifiers

open EglXcbPlatform EglComponentPeer

/-- The calls that the platform makes on a peer leave the static
`EglComponentPeer::currentModifiers` as it was, whatever they are. -/
theorem deliverAll_currentModifiers (calls : List Effect) :
    ∀ p : EglComponentPeer, (p.deliverAll calls).currentModifiers = p.currentModifiers := by
  induction calls with
  | nil => intro p; rfl
  | cons c rest ih =>
    intro p
    have h1 : (p.deliver c).currentModifiers = p.currentModifiers := by
      cases c <;> rfl
    show ((p.deliver c).deliverAll rest).currentModifiers = p.currentModifiers
    rw [ih, h1]

/-- C23 (code evaluated at the failing input): the press of the left button at
`(10, 20)` is handled while the peer is freshly constructed. The flag is set in
`XcbKeys::currentModifiers` (`16`) and is passed along with the mouse event, but
after the calls made by the platform have reached the peer both
`getCurrentModifiersRealtime()` and the value installed by
`updateCurrentModifiers()` are still `0`: they read
`EglComponentPeer::currentModifiers`, which the event decoding never writes. -/
theorem press_not_seen_by_modifier_queries :
    (handleGenericEvent ModifierKeys.juceFlags Scenario.getPeer Scenario.listening
        (Scenario.leftButtonEvent 4)).map
      (fun s => (s.currentModifiers, s.trace,
        ModifierKeys.getCurrentModifiersRealtime (Scenario.freshPeer.deliverAll s.trace),
        ModifierKeys.updateCurrentModifiers (Scenario.freshPeer.deliverAll s.trace))) =
    some (16, [.peerToFront 1 true, .peerHandleMouseEvent 1 0 ⟨10, 20⟩ 16 1000], 0, 0) ∧
    ModifierKeys.juceFlags.leftButtonModifier = 16 := by
  decide

end QueriedModifiers

/-! ### Other button codes (C24) -/

section OtherButtons

open EglXcbPlatform

/-- C24: for every button code other than left, middle and right,
`handleButtonPress` and `handleButtonRelease` return the state they were given:
the modifier state is unchanged and no call is made, on the peer or elsewhere.
For left, middle and right, the only codes for which the handlers call
`translateMouseButton`, that function does not reach `jassertfalse`; and
whatever the code, no assertion failure is among the calls a handler adds. -/
theorem other_buttons_are_ignored (K : ModifierFlags) (getPeer : Nat → Option Nat)
    (s : EglXcbPlatform) (p : Point) (btn st time : Nat) :
    ((btn ≠ XcbKeys.LeftButton ∧ btn ≠ XcbKeys.MiddleButton ∧ btn ≠ XcbKeys.RightButton) →
      handleButtonPress K getPeer s p btn st time = some s ∧
      handleButtonRelease K getPeer s p btn st time = some s) ∧
    ((btn = XcbKeys.RightButton ∨ btn = XcbKeys.LeftButton ∨ btn = XcbKeys.MiddleButton) →
      (translateMouseButton K btn).2 = false) ∧
    (∀ s1, handleButtonPress K getPeer s p btn st time = some s1 →
      ∃ es, s1.trace = s.trace ++ es ∧ Effect.assertionFailure ∉ es) ∧
    (∀ s1, handleButtonRelease K getPeer s p btn st time = some s1 →
      ∃ es, s1.trace = s.trace ++ es ∧ Effect.assertionFailure ∉ es) := by
  have hnoassert : (btn = XcbKeys.RightButton ∨ btn = XcbKeys.LeftButton ∨
      btn = XcbKeys.MiddleButton) → (translateMouseButton K btn).2 = false := by
    rintro (h | h | h) <;> subst h <;>
      simp [translateMouseButton, XcbKeys.NoButton, XcbKeys.LeftButton, XcbKeys.RightButton,
        XcbKeys.MiddleButton]
  refine ⟨?_, hnoassert, ?_, ?_⟩
  · rintro ⟨hl, hm, hr⟩
    have hguard : ¬ (btn = XcbKeys.RightButton ∨ btn = XcbKeys.LeftButton ∨
        btn = XcbKeys.MiddleButton) := by
      rintro (h | h | h)
      · exact hr h
      · exact hl h
      · exact hm h
    constructor
    · unfold handleButtonPress
      rw [if_neg hguard]
    · unfold handleButtonRelease
      rw [if_neg hguard]
  · intro s1 h
    unfold handleButtonPress at h
    split_ifs at h with hb
    · have hf := hnoassert hb
      cases hfl : translateMouseButton K btn with
      | mk flag failed =>
        rw [hfl] at h hf
        simp only [] at hf
        subst hf
        simp only [] at h
        split at h
        · exact absurd h (by simp)
        · simp only [Option.some.injEq] at h
          subst h
          exact ⟨_, by simp [emit]; rfl, by simp⟩
    · simp only [Option.some.injEq] at h
      subst h
      exact ⟨[], by simp, by simp⟩
  · intro s1 h
    unfold handleButtonRelease at h
    split_ifs at h with hb
    · have hf := hnoassert hb
      cases hfl : translateMouseButton K btn with
      | mk flag failed =>
        rw [hfl] at h hf
        simp only [] at hf
        subst hf
        simp only [] at h
        split at h
        · exact absurd h (by simp)
        · simp only [Option.some.injEq] at h
          subst h
          exact ⟨_, by simp [emit]; rfl, by simp⟩
    · simp only [Option.some.injEq] at h
      subst h
      exact ⟨[], by simp, by simp⟩

/-- C24 witness: the wheel-up code `4`, on a platform with a peer attached. -/
theorem other_buttons_are_ignored_witness :
    ((4 : Nat) ≠ XcbKeys.LeftButton ∧ (4 : Nat) ≠ XcbKeys.MiddleButton ∧
      (4 : Nat) ≠ XcbKeys.RightButton) ∧
    handleButtonPress ModifierKeys.juceFlags Scenario.getPeer Scenario.listening
      ⟨10, 20⟩ 4 0 1000 = some Scenario.listening ∧
    handleButtonRelease ModifierKeys.juceFlags Scenario.getPeer Scenario.listening
      ⟨10, 20⟩ 4 0 1000 = some Scenario.listening :=
  ⟨by decide,
   (other_buttons_are_ignored ModifierKeys.juceFlags Scenario.getPeer Scenario.listening
      ⟨10, 20⟩ 4 0 1000).1 (by decide)⟩

end OtherButtons


/-! ### The full-screen flag (C25) -/

section FullScreenFlag

open EglComponentPeer

theorem setBounds_fullScreen (p : EglComponentPeer) (r : Rectangle) (flag : Bool) :
    (p.setBounds r flag).fullScreen = p.fullScreen := by
  unfold setBounds
  split <;> rfl

theorem setFullScreen_fullScreen (p : EglComponentPeer) (userArea : Rectangle) (flag : Bool) :
    (p.setFullScreen userArea flag).fullScreen = p.fullScreen := by
  unfold setFullScreen
  simp only [emit]
  split_ifs <;> first | rfl | exact setBounds_fullScreen _ _ _

theorem handleScreenSizeChange_fullScreen (p : EglComponentPeer) (userArea : Rectangle) :
    (p.handleScreenSizeChange userArea).fullScreen = p.fullScreen := by
  unfold handleScreenSizeChange
  simp only []
  split
  · rw [setFullScreen_fullScreen]; rfl
  · rfl

theorem handleMouseDragCallback_fullScreen (K : ModifierFlags) (t : ShiftTarget)
    (p : EglComponentPeer) (index : Int) (pos : PointF) (time : Int) :
    (handleMouseDragCallback K t p index pos time).fullScreen = p.fullScreen := by
  unfold handleMouseDragCallback handleMouseEvent assertIndex emit
  simp only []
  split <;> rfl

theorem handleMouseUpCallback_fullScreen (K : ModifierFlags) (t : ShiftTarget)
    (p : EglComponentPeer) (index : Int) (pos : PointF) (time : Int) :
    (handleMouseUpCallback K t p index pos time).fullScreen = p.fullScreen := by
  unfold handleMouseUpCallback handleMouseEvent assertIndex emit
  simp only []
  split <;> split <;> rfl

/-- No call of a member function changes the member `fullScreen`. -/
theorem apply_fullScreen (K : ModifierFlags) (t : ShiftTarget) (p : EglComponentPeer)
    (c : PeerCall) : (c.apply K t p).fullScreen = p.fullScreen := by
  cases c with
  | setBounds r f => exact setBounds_fullScreen p r f
  | setFullScreen userArea f => exact setFullScreen_fullScreen p userArea f
  | handleScreenSizeChange userArea => exact handleScreenSizeChange_fullScreen p userArea
  | toFront m => rfl
  | toBehind n => rfl
  | handleMouseDownCallback v index pos time =>
    show (handleMouseDownCallback K t v p index pos time).fullScreen = p.fullScreen
    unfold handleMouseDownCallback
    simp only []
    split
    · rw [handleMouseDragCallback_fullScreen]; rfl
    · rfl
  | handleMouseDragCallback index pos time =>
    exact handleMouseDragCallback_fullScreen K t p index pos time
  | handleMouseUpCallback index pos time =>
    exact handleMouseUpCallback_fullScreen K t p index pos time
  | handleKeyDownCallback k kc => rfl
  | handleKeyUpCallback k kc => rfl
  | handleFocusChangeCallback f =>
    show (p.handleFocusChangeCallback f).fullScreen = p.fullScreen
    unfold handleFocusChangeCallback
    split <;> rfl
  | emptyBody => rfl

theorem runPeerCalls_fullScreen (K : ModifierFlags) (t : ShiftTarget) (calls : List PeerCall) :
    ∀ p : EglComponentPeer, (runPeerCalls K t p calls).fullScreen = p.fullScreen := by
  induction calls with
  | nil => intro p; rfl
  | cons c rest ih =>
    intro p
    show (runPeerCalls K t (c.apply K t p) rest).fullScreen = p.fullScreen
    rw [ih, apply_fullScreen]

/-- C25: in every state that a peer reaches from its construction by calls of its
member functions, `setFullScreen (true)` included, `isFullScreen()` returns
false; `handleScreenSizeChange` there only makes the call of the base class and
never calls `setFullScreen`. -/
theorem isFullScreen_always_false (K : ModifierFlags) (t : ShiftTarget) (self : ComponentPeer)
    (componentName : String) (componentBounds userArea : Rectangle) (calls : List PeerCall) :
    (runPeerCalls K t (EglComponentPeer.new self componentName componentBounds)
        calls).isFullScreen = false ∧
    (runPeerCalls K t (EglComponentPeer.new self componentName componentBounds)
        (calls ++ [.setFullScreen userArea true])).isFullScreen = false ∧
    (runPeerCalls K t (EglComponentPeer.new self componentName componentBounds)
        calls).handleScreenSizeChange userArea =
      (runPeerCalls K t (EglComponentPeer.new self componentName componentBounds)
        calls).emit .peerBaseHandleScreenSizeChange := by
  have h : ∀ cs, (runPeerCalls K t (EglComponentPeer.new self componentName componentBounds)
      cs).fullScreen = false := by
    intro cs
    rw [runPeerCalls_fullScreen]
    rfl
  refine ⟨h calls, h _, ?_⟩
  unfold handleScreenSizeChange
  simp only []
  rw [if_neg]
  simp only [isFullScreen, emit]
  rw [h calls]
  simp

end FullScreenFlag

/-! ### The answer of `createdOk` (C26) -/

section CreatedOk

open NativeContext

/-- C26: `createdOk()` returns true in every state. In particular it does so
after a construction in which `eglChooseConfig` fails or reports a number of
configurations other than one, or in which `eglCreateWindowSurface` returns
`EGL_NO_SURFACE`: the surface is then `EGL_NO_SURFACE`, and `makeActive()`
returns false whatever EGL would answer. -/
theorem createdOk_always_true (nc : NativeContext) (componentBounds : Rectangle)
    (pixelFormat : OpenGLPixelFormat) (shareContext : Option Nat) (nativeWindow : Nat)
    (currentContext : Option Nat) (egl : EglAnswers) (madeCurrent : Bool) :
    nc.createdOk = true ∧
    ((egl.chooseConfigOk = false ∨ egl.numConfigs ≠ 1 ∨ egl.windowSurface = none) →
      (NativeContext.new componentBounds pixelFormat shareContext nativeWindow
          currentContext egl).surface = none ∧
      (NativeContext.new componentBounds pixelFormat shareContext nativeWindow
          currentContext egl).createdOk = true ∧
      ((NativeContext.new componentBounds pixelFormat shareContext nativeWindow
          currentContext egl).makeActive madeCurrent).1 = false) := by
  refine ⟨rfl, ?_⟩
  intro h
  have hs : (NativeContext.new componentBounds pixelFormat shareContext nativeWindow
      currentContext egl).surface = none := by
    unfold NativeContext.new
    cases hok : egl.chooseConfigOk
    · simp [emit]
    · by_cases hn : egl.numConfigs = 1
      · have hw : egl.windowSurface = none := by
          rcases h with h | h | h
          · rw [hok] at h; exact absurd h (by simp)
          · exact absurd hn h
          · exact h
        simp [hn, hw, emit]
      · simp [hn, emit]
  refine ⟨hs, rfl, ?_⟩
  unfold makeActive
  split_ifs <;> rfl

/-- C26 witness: EGL reports no matching configuration. -/
theorem createdOk_always_true_witness :
    (Scenario.eglNoConfig.chooseConfigOk = false ∨ Scenario.eglNoConfig.numConfigs ≠ 1 ∨
      Scenario.eglNoConfig.windowSurface = none) ∧
    (NativeContext.new ⟨0, 0, 320, 240⟩ Scenario.pixelFormat none 101 none
        Scenario.eglNoConfig).surface = none ∧
    (NativeContext.new ⟨0, 0, 320, 240⟩ Scenario.pixelFormat none 101 none
        Scenario.eglNoConfig).createdOk = true ∧
    ((NativeContext.new ⟨0, 0, 320, 240⟩ Scenario.pixelFormat none 101 none
        Scenario.eglNoConfig).makeActive true).1 = false :=
  ⟨by decide,
   (createdOk_always_true Scenario.readyContext ⟨0, 0, 320, 240⟩ Scenario.pixelFormat none
      101 none Scenario.eglNoConfig true).2 (by decide)⟩

end CreatedOk

/-! ### Local and global positions (C27) -/

section Positions

open EglComponentPeer

theorem wrap32_add_sub (a b : Int) (ha : isInt32 a) :
    wrap32 (wrap32 (a + b) - b) = a ∧ wrap32 (wrap32 (a - b) + b) = a := by
  unfold isInt32 at ha
  unfold wrap32
  omega

/-- C27: for every peer and every point `p` with 32-bit coordinates,
`localToGlobal (p)` is `p` plus the top-left corner of the bounds of the peer,
coordinate by coordinate and wrapping at 32 bits, and the two conversions undo
each other: `globalToLocal (localToGlobal (p)) == p` and
`localToGlobal (globalToLocal (p)) == p`. -/
theorem localToGlobal_globalToLocal_inverse (peer : EglComponentPeer) (p : Point)
    (hx : isInt32 p.x) (hy : isInt32 p.y) :
    peer.localToGlobal p =
      ⟨wrap32 (p.x + peer.getBounds.x), wrap32 (p.y + peer.getBounds.y)⟩ ∧
    peer.globalToLocal (peer.localToGlobal p) = p ∧
    peer.localToGlobal (peer.globalToLocal p) = p := by
  refine ⟨rfl, ?_, ?_⟩
  · show Point.mk _ _ = p
    cases p with
    | mk x y =>
      simp only [localToGlobal, globalToLocal, getScreenPosition, Rectangle.getTopLeft,
        Point.add, Point.sub]
      rw [(wrap32_add_sub x _ hx).1, (wrap32_add_sub y _ hy).1]
  · show Point.mk _ _ = p
    cases p with
    | mk x y =>
      simp only [localToGlobal, globalToLocal, getScreenPosition, Rectangle.getTopLeft,
        Point.add, Point.sub]
      rw [(wrap32_add_sub x _ hx).2, (wrap32_add_sub y _ hy).2]

/-- C27 witness: a peer at `(2147483000, -5)` and the local point `(1000, -7)`,
whose global abscissa wraps around. -/
theorem localToGlobal_globalToLocal_inverse_witness :
    isInt32 (1000 : Int) ∧ isInt32 (-7 : Int) ∧
    ({ Scenario.freshPeer with bounds := ⟨2147483000, -5, 10, 10⟩ } :
        EglComponentPeer).localToGlobal ⟨1000, -7⟩ = ⟨-2147483296, -12⟩ ∧
    ({ Scenario.freshPeer with bounds := ⟨2147483000, -5, 10, 10⟩ } :
        EglComponentPeer).globalToLocal
      (({ Scenario.freshPeer with bounds := ⟨2147483000, -5, 10, 10⟩ } :
        EglComponentPeer).localToGlobal ⟨1000, -7⟩) = ⟨1000, -7⟩ ∧
    ({ Scenario.freshPeer with bounds := ⟨2147483000, -5, 10, 10⟩ } :
        EglComponentPeer).localToGlobal
      (({ Scenario.freshPeer with bounds := ⟨2147483000, -5, 10, 10⟩ } :
        EglComponentPeer).globalToLocal ⟨1000, -7⟩) = ⟨1000, -7⟩ := by
  have h := localToGlobal_globalToLocal_inverse
    { Scenario.freshPeer with bounds := ⟨2147483000, -5, 10, 10⟩ } ⟨1000, -7⟩
    (by unfold isInt32; decide) (by unfold isInt32; decide)
  exact ⟨by unfold isInt32; decide, by unfold isInt32; decide, h.1.trans (by decide),
    h.2.1, h.2.2⟩

end Positions

end Juce
